import Mathlib

/-!
# Verification of the chlang compiler and register VM core

A shallow embedding, in Lean 4, of the core of the chlang repository:

* the register-based virtual machine (`src/targets/vm/vm.go`, `opcode.go`,
  `function.go`, `buildin.go`),
* the code generator (`src/unnamed/part_002`, package `vm`),
* the constant folder (`src/unnamed/part_011`, package `transformer`),
* the semantic checker (`src/unnamed/part_007` first unit, package `checker`,
  together with its environment `src/unnamed/part_009` and the type catalog
  `src/unnamed/part_010`, `src/frontend/checker/env/types.go`).

Modelling conventions, applied throughout:

* Go `int64` values are modelled as `Int` with explicit two's-complement
  wrapping (`wrap64`) at every operation where Go wraps.
* Go `float64` payloads are modelled as `ℚ`.  Every comparison with `0.0`
  and every widening/truncating conversion exercised by the claims is exact
  on `ℚ`; the claims never depend on rounding of float arithmetic.
  `math.Pow` is modelled by a fixed computable function (`goMathPowI64`,
  `goMathPowF`) that is shared by the constant folder and the VM exactly as
  the single Go expression `int64(math.Pow(float64(x), float64(y)))` is;
  the claims depend only on both sides calling the same function.
* Go runtime panics (slice index out of range, failed interface type
  assertion, integer division by zero) and the VM's explicit `panic` calls
  are both modelled as `Except` errors; distinct error constructors record
  which panic fired.
* Go maps keyed by strings are modelled as association lists; the claims
  never depend on map iteration order (the only iterated map,
  `BuildInFunctions`, has a single entry, `println`).
* Go pointers to `FunctionObject` are modelled as indices into a function
  heap carried by the generator / VM state.
-/

namespace Chlang

/-! ## Two's-complement helpers for Go int64 arithmetic -/

def i64Modulus : Int := 18446744073709551616

def i64HalfModulus : Int := 9223372036854775808

/-- Interpret an unbounded integer as a Go `int64`, i.e. reduce it modulo
`2^64` into `[-2^63, 2^63)`. -/
def wrap64 (x : Int) : Int :=
  let u := Int.emod x i64Modulus
  if u < i64HalfModulus then u else u - i64Modulus

/-- The `int64` value reinterpreted as `uint64` (for bitwise operations). -/
def toU64 (x : Int) : Nat := (Int.emod x i64Modulus).toNat

/-- A `uint64` bit pattern reinterpreted as `int64`. -/
def ofU64 (n : Nat) : Int :=
  if (n : Int) < i64HalfModulus then (n : Int) else (n : Int) - i64Modulus

/-- `x` is in the Go `int64` range. -/
def InI64 (x : Int) : Prop := -i64HalfModulus ≤ x ∧ x < i64HalfModulus

instance (x : Int) : Decidable (InI64 x) := by
  unfold InI64; infer_instance

/-- Go's conversion `int64(f)` of a `float64`, truncation toward zero.
(Go leaves the out-of-range case implementation-specific; the claims only
exercise in-range values.) -/
def ratTrunc (q : ℚ) : Int := Int.tdiv q.num (q.den : Int)

/-- Model of the Go expression `int64(math.Pow(float64(x), float64(y)))`.
The constant folder (`transformer.evaluateConstant`) and the VM
(`performBinaryOperation`) contain this identical expression; both sides of
the embedding call this single function, so every theorem that relates them
is insensitive to the modelling of `math.Pow` itself.  The model is exact
for the small non-negative exponents exercised by the witnesses. -/
def goMathPowI64 (x y : Int) : Int :=
  if 0 ≤ y then wrap64 (x ^ y.toNat)
  else if x = 1 then 1
  else if x = -1 then (if Int.emod y 2 = 0 then 1 else -1)
  else if x = 0 then i64HalfModulus - 1
  else 0

/-- Model of Go `math.Pow` on `float64` operands (see `goMathPowI64`). -/
def goMathPowF (x y : ℚ) : ℚ :=
  if y.den = 1 ∧ 0 ≤ y.num then x ^ y.num.toNat else 0

/-! ## VM values (`src/targets/vm/vm.go` related unit / `part_003`)

`OperandValue` is Go's `struct { Kind OperandValueType; Value any }`.
The dynamic type of the `any` payload is `GoAny`; Go interface type
assertions become `Option`-returning accessors. -/

inductive OperandValueType where
  | undefined
  | int8
  | int16
  | int32
  | int64
  | float32
  | float64
  | bool
  | string
  | functionObject
  | buildInFunction
deriving DecidableEq

/-- The dynamic value stored in an `any` payload.  `funcPtr` models a
`*FunctionObject` pointer as an index into the function heap. -/
inductive GoAny where
  | nil
  | i64 (n : Int)
  | f64 (q : ℚ)
  | bool (b : Bool)
  | str (s : String)
  | funcPtr (fid : Nat)
deriving DecidableEq

structure OperandValue where
  Kind : OperandValueType
  Value : GoAny
deriving DecidableEq

def OperandValueType.IsNumeric : OperandValueType → Bool
  | .int8 | .int16 | .int32 | .int64 | .float32 | .float64 => true
  | _ => false

def undefinedValue : OperandValue := ⟨.undefined, .nil⟩

/-! ## Opcodes (`src/unnamed/part_003`, the `opcode.go` matching `vm.go`) -/

inductive Opcode where
  | Halt
  | Move
  | LoadConst
  | LoadBool
  | LoadString
  | LoadImm32
  | Add
  | Pow
  | Mod
  | Sub
  | Mul
  | Div
  | And
  | Or
  | Xor
  | Shl
  | Shr
  | Eq
  | Neq
  | Gt
  | Gte
  | Lt
  | Lte
  | Not
  | Neg
  | Jump
  | JumpIf
  | Call
  | Return
  | Nop
deriving DecidableEq

def Opcode.IsComparison (op : Opcode) : Bool :=
  op = .Eq || op = .Neq || op = .Gt || op = .Gte || op = .Lt || op = .Lte

/-! ## Instructions

Go instruction operands are `[]any`; the values actually stored by the code
generator are `RegisterAddress` (an `int`), `ConstantValueIdx` (an `int`),
`int64`, `int`, `bool` and `string`.  `GoOperand` is that sum; the VM's
type assertions (`operands[i].(T)`) become the `as*` accessors, which fail
(Go panic) on any other constructor. -/

inductive GoOperand where
  | reg (r : Int)
  | cidx (i : Nat)
  | i64 (n : Int)
  | int (n : Int)
  | bool (b : Bool)
  | str (s : String)
deriving DecidableEq

structure VMInstruction where
  opcode : Opcode
  operands : List GoOperand
deriving DecidableEq

def GoOperand.asReg : GoOperand → Option Int
  | .reg r => some r
  | _ => none

def GoOperand.asCidx : GoOperand → Option Nat
  | .cidx i => some i
  | _ => none

def GoOperand.asI64 : GoOperand → Option Int
  | .i64 n => some n
  | _ => none

def GoOperand.asInt : GoOperand → Option Int
  | .int n => some n
  | _ => none

def GoOperand.asBool : GoOperand → Option Bool
  | .bool b => some b
  | _ => none

def GoOperand.asStr : GoOperand → Option String
  | .str s => some s
  | _ => none

/-! ## Constants, registers, function objects (`src/targets/vm/function.go`) -/

structure ConstantValue where
  Name : String
  Value : OperandValue
deriving DecidableEq

structure LocalRegister where
  name : String
  address : Int
  depth : Int
  temp : Bool
deriving DecidableEq

/-- `FunctionObject` from `function.go`.  The Go `parent *FunctionObject`
chain is represented externally: the generator keeps the chain as a list
(current function first), mirroring how the single mutable `g.function`
pointer walks up on `lookupConstant`. -/
structure FunctionObject where
  name : String
  instructions : List VMInstruction
  locals : List LocalRegister
  constants : List ConstantValue
  scopeDepth : Int
deriving DecidableEq

/-! ## VM errors

Each constructor records one Go panic site (either an explicit `panic` in
the VM source or a Go runtime panic). -/

inductive VMError where
  /-- Go runtime panic: slice index out of range (stack or operand list or
  constant pool indexed out of bounds). -/
  | indexOutOfRange
  /-- Go runtime panic: failed interface type assertion. -/
  | typeAssertionFailed
  /-- `panic("vm: invalid operand type ...")`. -/
  | invalidOperandType
  /-- `panic("vm: division by zero")` — the explicit check in
  `performBinaryOperation` (present in both the int64 and float64 paths). -/
  | divisionByZero
  /-- Go runtime panic `integer divide by zero`, from evaluating `x % y`
  with `y = 0` (the Mod case has no explicit check). -/
  | intDivideByZero
  /-- Go runtime panic: negative shift amount. -/
  | negativeShift
  /-- `panic("vm: unknown binary opcode ...")`. -/
  | unknownBinaryOpcode
  /-- `panic("vm: unsupported float64 operation ...")`. -/
  | unsupportedFloatOp
  /-- `panic("vm: unsupported operand type ...")`. -/
  | unsupportedOperandType
  /-- `panic("error: unknown opcode ...")` in the dispatch loop. -/
  | unknownOpcode
  /-- `panic("Invalid function object to perform call ...")`. -/
  | invalidCallee
  /-- `panic("Invalid build-in function ...")`. -/
  | invalidBuiltin
  /-- `panic("Stack overflow during function call ...")`. -/
  | stackOverflow
  /-- Go nil-pointer dereference of `vm.callRecord`. -/
  | nilFrame
deriving DecidableEq

/-! ## The arithmetic core of `performBinaryOperation`

`goIntArith` is the `case int64:` switch (operand `y` already converted),
`goFloatArith` the `case float64:` switch, `goCompare*` the comparison
switches.  Factoring them out of the stack plumbing changes nothing
observable; `binaryOpValue` below reassembles the function exactly. -/

def goIntArith : Opcode → Int → Int → Except VMError Int
  | .Add, x, y => .ok (wrap64 (x + y))
  | .Sub, x, y => .ok (wrap64 (x - y))
  | .Mul, x, y => .ok (wrap64 (x * y))
  | .Div, x, y =>
      if y = 0 then .error .divisionByZero else .ok (wrap64 (Int.tdiv x y))
  | .Pow, x, y => .ok (goMathPowI64 x y)
  | .Mod, x, y =>
      if y = 0 then .error .intDivideByZero else .ok (Int.tmod x y)
  | .Shl, x, y =>
      if y < 0 then .error .negativeShift else .ok (wrap64 (x * 2 ^ y.toNat))
  | .Shr, x, y =>
      if y < 0 then .error .negativeShift else .ok (Int.fdiv x (2 ^ y.toNat))
  | .And, x, y => .ok (ofU64 (Nat.land (toU64 x) (toU64 y)))
  | .Or, x, y => .ok (ofU64 (Nat.lor (toU64 x) (toU64 y)))
  | .Xor, x, y => .ok (ofU64 (Nat.xor (toU64 x) (toU64 y)))
  | _, _, _ => .error .unknownBinaryOpcode

def goFloatArith : Opcode → ℚ → ℚ → Except VMError ℚ
  | .Add, x, y => .ok (x + y)
  | .Sub, x, y => .ok (x - y)
  | .Mul, x, y => .ok (x * y)
  | .Div, x, y =>
      if y = 0 then .error .divisionByZero else .ok (x / y)
  | .Pow, x, y => .ok (goMathPowF x y)
  | _, _, _ => .error .unsupportedFloatOp

def goCompareInt (op : Opcode) (x y : Int) : Bool :=
  match op with
  | .Eq => x = y
  | .Gt => x > y
  | .Gte => x ≥ y
  | .Lt => x < y
  | .Lte => x ≤ y
  | .Neq => x ≠ y
  | _ => false

def goCompareFloat (op : Opcode) (x y : ℚ) : Bool :=
  match op with
  | .Eq => x = y
  | .Gt => x > y
  | .Gte => x ≥ y
  | .Lt => x < y
  | .Lte => x ≤ y
  | .Neq => x ≠ y
  | _ => false

/-- The value-level body of `performBinaryOperation` (vm.go lines 213-377):
given the two operand slots, produce the slot written to the target
register, or the panic the Go code raises. -/
def binaryOpValue (opcode : Opcode) (operandX operandY : OperandValue) :
    Except VMError OperandValue :=
  if opcode.IsComparison then
    if operandX.Kind ≠ operandY.Kind then .error .invalidOperandType
    else
      match operandX.Value with
      | .i64 x =>
          match operandY.Value with
          | .i64 y => .ok ⟨.bool, .bool (goCompareInt opcode x y)⟩
          | _ => .error .typeAssertionFailed
      | .f64 x =>
          match operandY.Value with
          | .f64 y => .ok ⟨.bool, .bool (goCompareFloat opcode x y)⟩
          | _ => .error .typeAssertionFailed
      | _ => .error .unsupportedOperandType
  else if operandX.Kind.IsNumeric then
    match operandX.Value with
    | .i64 x =>
        -- `if _, ok := operandY.Value.(int64); !ok { y = int64(operandY.Value.(float64)) }`
        (match operandY.Value with
          | .i64 y => .ok y
          | .f64 q => .ok (ratTrunc q)
          | _ => .error .typeAssertionFailed : Except VMError Int).bind
        fun y => (goIntArith opcode x y).map fun r => ⟨.int64, .i64 r⟩
    | .f64 x =>
        (match operandY.Value with
          | .f64 q => .ok q
          | .i64 y => .ok (y : ℚ)
          | _ => .error .typeAssertionFailed : Except VMError ℚ).bind
        fun y => (goFloatArith opcode x y).map fun r => ⟨.float64, .f64 r⟩
    | _ => .error .unsupportedOperandType
  else if operandX.Kind = .bool then
    match operandX.Value, operandY.Value with
    | .bool x, .bool y =>
        match opcode with
        | .And => .ok ⟨.bool, .bool (x && y)⟩
        | .Or => .ok ⟨.bool, .bool (x || y)⟩
        | _ => .error .unknownBinaryOpcode
    | _, _ => .error .typeAssertionFailed
  else .error .invalidOperandType

/-! ## VM state (`src/targets/vm/vm.go`) -/

def minStackFrameSize : Int := 255

def maxStackSize : Int := 65535

/-- The VM stack, Go `type Stack []OperandValue`: a slice of length `size`.
Represented as a total function to keep large stacks cheap; all reads and
writes are bounds-checked exactly where Go would panic. -/
structure Stack where
  size : Nat
  data : Nat → OperandValue

/-- Go `vm.stack[i]` for `i : RegisterAddress` (an `int`) — panics when out
of range. -/
def Stack.read (s : Stack) (i : Int) : Except VMError OperandValue :=
  if 0 ≤ i ∧ i < (s.size : Int) then .ok (s.data i.toNat)
  else .error .indexOutOfRange

structure CallFrame where
  function : FunctionObject
  base : Int
  top : Int
  returnAddress : Int
  args : Int
  results : Int
  usedSize : Nat

/-- The `parent` chain of call records is the tail of `frames`; the current
`vm.callRecord` is its head.  `funcs` is the heap backing `*FunctionObject`
payloads.  `output` records `println` side effects (argument lists; the Go
string formatting is elided, no claim depends on it). -/
structure VM where
  ip : Nat
  stack : Stack
  stackCapacity : Int
  frames : List CallFrame
  funcs : List FunctionObject
  output : List (List OperandValue)

/-- `vm.setStackValue(index, slot)`: bump the current frame's used-size
high-water mark, then `vm.stack[index] = *slot` (bounds-checked). -/
def VM.setStackValue (vm : VM) (index : Int) (slot : OperandValue) :
    Except VMError VM :=
  match vm.frames with
  | [] => .error .nilFrame
  | cur :: rest =>
      if 0 ≤ index ∧ index < (vm.stack.size : Int) then
        .ok { vm with
          stack := ⟨vm.stack.size,
            fun j => if j = index.toNat then slot else vm.stack.data j⟩,
          frames := { cur with usedSize := max cur.usedSize (index.toNat + 1) } :: rest }
      else .error .indexOutOfRange

/-- `vm.setStackNullValue(index)`: direct write of the undefined value,
without the used-size update. -/
def VM.setStackNullValue (vm : VM) (index : Int) : Except VMError VM :=
  if 0 ≤ index ∧ index < (vm.stack.size : Int) then
    .ok { vm with stack := ⟨vm.stack.size,
      fun j => if j = index.toNat then undefinedValue else vm.stack.data j⟩ }
  else .error .indexOutOfRange

/-- Operand fetch `operands[i]` (Go slice index panic when absent). -/
def opAt (ops : List GoOperand) (i : Nat) : Except VMError GoOperand :=
  match ops.get? i with
  | some v => .ok v
  | none => .error .indexOutOfRange

/-- `operands[i].(RegisterAddress)`. -/
def regOp (ops : List GoOperand) (i : Nat) : Except VMError Int :=
  (opAt ops i).bind fun v =>
    match v.asReg with
    | some r => .ok r
    | none => .error .typeAssertionFailed

/-- `operands[i].(ConstantValueIdx)`. -/
def cidxOp (ops : List GoOperand) (i : Nat) : Except VMError Nat :=
  (opAt ops i).bind fun v =>
    match v.asCidx with
    | some r => .ok r
    | none => .error .typeAssertionFailed

/-- `operands[i].(int64)`. -/
def i64Op (ops : List GoOperand) (i : Nat) : Except VMError Int :=
  (opAt ops i).bind fun v =>
    match v.asI64 with
    | some r => .ok r
    | none => .error .typeAssertionFailed

/-- `operands[i].(int)`. -/
def intOp (ops : List GoOperand) (i : Nat) : Except VMError Int :=
  (opAt ops i).bind fun v =>
    match v.asInt with
    | some r => .ok r
    | none => .error .typeAssertionFailed

/-- `operands[i].(bool)`. -/
def boolOp (ops : List GoOperand) (i : Nat) : Except VMError Bool :=
  (opAt ops i).bind fun v =>
    match v.asBool with
    | some r => .ok r
    | none => .error .typeAssertionFailed

/-- `operands[i].(string)`. -/
def strOp (ops : List GoOperand) (i : Nat) : Except VMError String :=
  (opAt ops i).bind fun v =>
    match v.asStr with
    | some r => .ok r
    | none => .error .typeAssertionFailed

/-- Go `uint32(a)` for an `int` jump target, as the next `vm.ip`. -/
def toUInt32Nat (a : Int) : Nat := (Int.emod a 4294967296).toNat

/-- `vm.performBinaryOperation(opcode, register, x, y)`: read both operand
slots, evaluate (`binaryOpValue`), write the target register. -/
def VM.performBinaryOperation (vm : VM) (opcode : Opcode)
    (register x y : Int) : Except VMError VM := do
  let operandX ← vm.stack.read x
  let operandY ← vm.stack.read y
  let result ← binaryOpValue opcode operandX operandY
  vm.setStackValue register result

/-- Collect `args` builtin-call operands `&vm.stack[fbp+i]`, `0 ≤ i < args`
(each index bounds-checked as in Go). -/
def collectBuiltinArgs (vm : VM) (fbp : Int) :
    Nat → Nat → Except VMError (List OperandValue)
  | 0, _ => .ok []
  | n + 1, i => do
      let v ← vm.stack.read (fbp + (i : Int))
      let rest ← collectBuiltinArgs vm fbp n (i + 1)
      .ok (v :: rest)

/-- `vm.callFunc(function, args, results)` (vm.go lines 401-443). -/
def VM.callFunc (vm : VM) (function : Int) (args results : Int) :
    Except VMError VM :=
  match vm.frames with
  | [] => .error .nilFrame
  | parentFrame :: _ =>
      let functionBasePointer := parentFrame.base + function + 1
      (vm.stack.read (parentFrame.base + function)).bind fun functionObj =>
      if functionObj.Kind = .buildInFunction then
        -- `BuildInFunctions[functionObj.Value.(string)]`; the registry has
        -- the single entry "println".
        (match functionObj.Value with
          | .str s => .ok s
          | _ => .error .typeAssertionFailed : Except VMError String).bind
        fun name =>
        if name = "println" then
          (collectBuiltinArgs vm functionBasePointer
              (if 0 ≤ args then args.toNat else 0) 0).bind fun operands =>
          ({ vm with output := vm.output ++ [operands] }).setStackNullValue
            (functionBasePointer - 1)
        else .error .invalidBuiltin
      else if functionObj.Kind ≠ .functionObject then .error .invalidCallee
      else
        (match functionObj.Value with
          | .funcPtr fid =>
              (match vm.funcs.get? fid with
                | some f => .ok f
                | none => .error .indexOutOfRange)
          | _ => .error .typeAssertionFailed : Except VMError FunctionObject).bind
        fun callee =>
        let newFrame : CallFrame :=
          { args := args
            results := results
            base := functionBasePointer
            top := functionBasePointer + minStackFrameSize
            function := callee
            returnAddress := (vm.ip : Int)
            usedSize := 0 }
        let vm' := { vm with frames := newFrame :: vm.frames, ip := 0 }
        if newFrame.top > vm'.stackCapacity then
          if vm'.stackCapacity > maxStackSize then .error .stackOverflow
          else .ok { vm' with
            stackCapacity := newFrame.top
            stack := ⟨newFrame.top.toNat,
              fun j => if j < vm'.stack.size then vm'.stack.data j
                       else undefinedValue⟩ }
        else .ok vm'

/-- The copy loop of `OpcodeReturn`:
`vm.setStackValue(returnStartIdx+i, &vm.stack[base+from+i])`, ascending. -/
def returnCopyLoop (retStart fromIdx : Int) :
    Nat → Nat → VM → Except VMError VM
  | 0, _, vm => .ok vm
  | n + 1, i, vm => do
      let slot ← vm.stack.read (fromIdx + (i : Int))
      let vm' ← vm.setStackValue (retStart + (i : Int)) slot
      returnCopyLoop retStart fromIdx n (i + 1) vm'

/-- One iteration of the dispatch loop of `vm.Run` (vm.go lines 96-211):
fetch, increment `ip`, execute.  `.ok none` models leaving the loop (a
`Halt`, or `fetch` returning nil at the end of the instruction list). -/
def step (vm : VM) : Except VMError (Option VM) :=
  match vm.frames with
  | [] => .error .nilFrame
  | cur :: rest =>
      let base := cur.base
      match cur.function.instructions.get? vm.ip with
      | none => .ok none
      | some instruction =>
          let vm := { vm with ip := vm.ip + 1 }
          let operands := instruction.operands
          match instruction.opcode with
          | .Halt => .ok none
          | .LoadImm32 => do
              let address ← regOp operands 0
              let operand ← i64Op operands 1
              let vm' ← vm.setStackValue (base + address) ⟨.int64, .i64 operand⟩
              .ok (some vm')
          | .LoadBool => do
              let address ← regOp operands 0
              let operand ← boolOp operands 1
              let vm' ← vm.setStackValue (base + address) ⟨.bool, .bool operand⟩
              .ok (some vm')
          | .LoadConst => do
              let target ← regOp operands 0
              let value ← cidxOp operands 1
              let constant ←
                (match cur.function.constants.get? value with
                  | some c => .ok c
                  | none => .error .indexOutOfRange : Except VMError ConstantValue)
              let vm' ← vm.setStackValue (base + target) constant.Value
              .ok (some vm')
          | .LoadString => do
              let target ← regOp operands 0
              let value ← strOp operands 1
              let vm' ← vm.setStackValue (base + target) ⟨.string, .str value⟩
              .ok (some vm')
          | .Not => do
              let target ← regOp operands 0
              let operand ← regOp operands 1
              let slot ← vm.stack.read (base + operand)
              let b ←
                (match slot.Value with
                  | .bool b => .ok b
                  | _ => .error .typeAssertionFailed : Except VMError Bool)
              let vm' ← vm.setStackValue (base + target) ⟨.bool, .bool (!b)⟩
              .ok (some vm')
          | .Neg => do
              let target ← regOp operands 0
              let operand ← regOp operands 1
              let stackValue ← vm.stack.read (base + operand)
              if stackValue.Kind.IsNumeric then
                match stackValue.Kind with
                | .int8 | .int16 | .int32 | .int64 => do
                    let n ←
                      (match stackValue.Value with
                        | .i64 n => .ok n
                        | _ => .error .typeAssertionFailed : Except VMError Int)
                    let vm' ← vm.setStackValue (base + target)
                      ⟨.int64, .i64 (wrap64 (-n))⟩
                    .ok (some vm')
                | _ => do
                    let q ←
                      (match stackValue.Value with
                        | .f64 q => .ok q
                        | _ => .error .typeAssertionFailed : Except VMError ℚ)
                    let vm' ← vm.setStackValue (base + target)
                      ⟨.float64, .f64 (-q)⟩
                    .ok (some vm')
              else .error .invalidOperandType
          | .Add | .Sub | .Mul | .Div
          | .Eq | .Gt | .Gte | .Lt | .Lte | .Neq
          | .Xor | .And | .Or | .Shl | .Shr
          | .Mod | .Pow => do
              let target ← regOp operands 0
              let operand1 ← regOp operands 1
              let operand2 ← regOp operands 2
              let vm' ← vm.performBinaryOperation instruction.opcode
                (base + target) (base + operand1) (base + operand2)
              .ok (some vm')
          | .Move => do
              let dest ← regOp operands 0
              let source ← regOp operands 1
              let sourceSlot ← vm.stack.read (base + source)
              let vm' ← vm.setStackValue (base + dest)
                ⟨sourceSlot.Kind, sourceSlot.Value⟩
              .ok (some vm')
          | .Jump => do
              let address ← intOp operands 0
              .ok (some { vm with ip := toUInt32Nat address })
          | .JumpIf => do
              let value ← regOp operands 0
              let condition ← boolOp operands 1
              let address ← intOp operands 2
              let slot ← vm.stack.read (base + value)
              -- `vm.stack[base+value].Value == condition`: an interface
              -- compared with a bool — true iff the payload is that bool.
              if slot.Value = .bool condition then
                .ok (some { vm with ip := toUInt32Nat address })
              else .ok (some vm)
          | .Call => do
              let function ← regOp operands 0
              let args ← intOp operands 1
              let results ← intOp operands 2
              let vm' ← vm.callFunc function args results
              .ok (some vm')
          | .Return => do
              let fromReg ← regOp operands 0
              let count ← intOp operands 1
              let returnStartIdx := cur.base - 1
              let vm' ← returnCopyLoop returnStartIdx (base + fromReg)
                (if 0 ≤ count then count.toNat else 0) 0 vm
              .ok (some { vm' with
                ip := toUInt32Nat cur.returnAddress
                frames := rest })
          | _ => .error .unknownOpcode

/-- Run the dispatch loop with `fuel` remaining iterations, counting the
states satisfying `p` that were passed through (used to count how often a
given instruction address is reached).  Returns the state in which the
loop exited. -/
def runCount (p : VM → Bool) : Nat → VM → Except VMError (VM × Nat)
  | 0, _ => .error .nilFrame
  | n + 1, vm =>
      match step vm with
      | .error e => .error e
      | .ok none => .ok (vm, 0)
      | .ok (some vm') =>
          (runCount p n vm').map fun r =>
            (r.1, r.2 + (if p vm then 1 else 0))

/-- `NewVM(module, opts)`: initial stack of `minStackFrameSize` zero values
and a single call record for the module. -/
def NewVM (module : FunctionObject) (funcs : List FunctionObject) : VM :=
  { ip := 0
    stack := ⟨255, fun _ => undefinedValue⟩
    stackCapacity := minStackFrameSize
    frames := [{ function := module, base := 0, top := minStackFrameSize,
                 returnAddress := 0, args := 0, results := 0, usedSize := 0 }]
    funcs := funcs
    output := [] }

/-! ## The AST fragment

The embedding covers the AST constructors exercised by the claims
(`src/unnamed/part_015`, package `ast`).  Literal nodes carry their parsed
values: the Go nodes store the literal text plus base/suffix, and every
consumer (`strconv.ParseInt` / `ParseFloat` in the checker, the generator
and the folder) parses the same text the same way, so a well-formed
literal is represented by its value.  An `ident` node's checker-resolved
symbol annotation is represented on `call` nodes by the `retVoid` flag
(the generator reads `expr.Function.Symbol.Function.ReturnType ==
SymbolTypeVoid` there and nothing else of the symbol). -/

inductive UnOp where
  | bang
  | minus
  | plus
deriving DecidableEq

inductive BinOp where
  | plus | minus | asterisk | exponent | percent | slash
  | equals | greater | greaterEquals | less | lessEquals | notEquals
  | andAnd | ampersand | orOr | pipe | caret | leftShift | rightShift
deriving DecidableEq

inductive AssignOp where
  | assign
  | plusAssign | minusAssign | slashAssign | exponentAssign | asteriskAssign
  | percentAssign | ampersandAssign | pipeAssign | caretAssign
  | leftShiftAssign | rightShiftAssign
deriving DecidableEq

mutual
inductive Expr where
  | intLit (value : Int)
  | floatLit (value : ℚ)
  | boolLit (value : Bool)
  | strLit (value : String)
  | ident (name : String)
  | unary (op : UnOp) (right : Expr)
  | binary (op : BinOp) (left right : Expr)
  | assign (op : AssignOp) (left right : Expr)
  /-- `IfExpression`: `ThenBlock *BlockStatement` is its statement list. -/
  | ifExpr (cond : Expr) (thenB : List Stmt) (elseB : ElseBranch)
  | call (fname : String) (retVoid : Bool) (args : List Expr)

/-- The `ElseBlock Statement` slot of an `IfExpression`: nil, a block, or a
nested if-expression. -/
inductive ElseBranch where
  | noneB
  | blockB (stmts : List Stmt)
  | ifB (e : Expr)

inductive Stmt where
  | constDecl (name : String) (typeAnn : Option String) (value : Expr)
  | varDecl (name : String) (typeAnn : Option String) (value : Option Expr)
  | funcDecl (name : String) (params : List (String × String))
      (retType : Option String) (body : List Stmt)
  | forRange (varName : String) (start stop : Expr) (inclusive : Bool)
      (body : List Stmt)
  | breakStmt
  | continueStmt
  | returnStmt (e : Option Expr)
  | exprStmt (e : Expr)
  | block (stmts : List Stmt)
end

/-! ## Code generator (`src/unnamed/part_002` with `function.go`) -/

inductive GenError where
  | constantExists (name : String)
  | unresolvedFunction (name : String)
  | unresolvedSymbol (name : String)
  | breakOutsideLoop
  | continueOutsideLoop
  | unknownExpression
  | invalidConstant
deriving DecidableEq

/-- `mappedBinaryOperatorsToOpcodes` (total: the `BinOp` type has exactly
the mapped keys). -/
def mappedBinaryOperatorsToOpcodes : BinOp → Opcode
  | .plus => .Add
  | .minus => .Sub
  | .asterisk => .Mul
  | .exponent => .Pow
  | .percent => .Mod
  | .slash => .Div
  | .equals => .Eq
  | .greater => .Gt
  | .greaterEquals => .Gte
  | .less => .Lt
  | .lessEquals => .Lte
  | .notEquals => .Neq
  | .andAnd => .And
  | .ampersand => .And
  | .orOr => .Or
  | .pipe => .Or
  | .caret => .Xor
  | .leftShift => .Shl
  | .rightShift => .Shr

def mappedAssignOperatorsToOpcodes : AssignOp → Opcode
  | .assign => .Move
  | .plusAssign => .Add
  | .minusAssign => .Sub
  | .slashAssign => .Div
  | .exponentAssign => .Pow
  | .asteriskAssign => .Mul
  | .percentAssign => .Mod
  | .ampersandAssign => .And
  | .pipeAssign => .Or
  | .caretAssign => .Xor
  | .leftShiftAssign => .Shl
  | .rightShiftAssign => .Shr

/-- `getOperandValueFromConstant` (part_002 lines 385-418). -/
def getOperandValueFromConstant : Expr → Except GenError OperandValue
  | .intLit n => .ok ⟨.int64, .i64 n⟩
  | .floatLit q => .ok ⟨.float64, .f64 q⟩
  | .boolLit b => .ok ⟨.bool, .bool b⟩
  | .strLit s => .ok ⟨.string, .str s⟩
  | _ => .error .invalidConstant

/-- First index whose entry has the same `(Kind, Value)` — the dedup scan
of `emitConstantValue`. -/
def findConstIdx : List ConstantValue → OperandValue → Option Nat
  | [], _ => none
  | c :: rest, v =>
      if c.Value = v then some 0 else (findConstIdx rest v).map (· + 1)

def FunctionObject.emitConstantValue (fn : FunctionObject)
    (v : OperandValue) : Nat × FunctionObject :=
  match findConstIdx fn.constants v with
  | some idx => (idx, fn)
  | none =>
      (fn.constants.length,
        { fn with constants := fn.constants ++
            [⟨"const#" ++ toString fn.constants.length, v⟩] })

/-- `lookupConstant` walks the `parent` chain (the generator's current
function followed by its ancestors). -/
def lookupConstantChain : List FunctionObject → String → Option OperandValue
  | [], _ => none
  | f :: rest, name =>
      match f.constants.find? (fun c => c.Name == name) with
      | some c => some c.Value
      | none => lookupConstantChain rest name

def FunctionObject.enterScope (fn : FunctionObject) : FunctionObject :=
  { fn with scopeDepth := fn.scopeDepth + 1 }

/-- Drop the trailing run of records satisfying `p` (the downward loops of
`leaveScope` / `freeAllTempRegister`). -/
def dropTrailing (p : LocalRegister → Bool) (ls : List LocalRegister) :
    List LocalRegister :=
  (ls.reverse.dropWhile p).reverse

def FunctionObject.leaveScope (fn : FunctionObject) : FunctionObject :=
  if fn.locals.isEmpty then { fn with scopeDepth := fn.scopeDepth - 1 }
  else
    { fn with
      locals := dropTrailing (fun l => l.depth == fn.scopeDepth) fn.locals
      scopeDepth := fn.scopeDepth - 1 }

/-- `bindLocal`: rename the temporary at slice index `register` in place.
(A negative register would be a Go slice-index panic; the generator only
ever passes addresses previously returned by `addTemp`/`addLocal`, which
are non-negative.) -/
def FunctionObject.bindLocal (fn : FunctionObject) (register : Int)
    (name : String) : Bool × FunctionObject :=
  if register < 0 ∨ (fn.locals.length : Int) ≤ register then (false, fn)
  else
    match fn.locals.get? register.toNat with
    | none => (false, fn)
    | some loc =>
        if !loc.temp then (false, fn)
        else
          (true, { fn with locals :=
              fn.locals.set register.toNat ({ loc with name := name, temp := false }) })

def FunctionObject.addTemp (fn : FunctionObject) : Int × FunctionObject :=
  let address : Int := fn.locals.length
  (address,
    { fn with locals := fn.locals ++
        [{ name := "<temp#" ++ toString fn.locals.length ++ ">",
           depth := fn.scopeDepth, temp := true, address := address }] })

def FunctionObject.freeAllTempRegister (fn : FunctionObject) :
    FunctionObject :=
  { fn with locals := dropTrailing (fun l => l.temp) fn.locals }

/-- `popTempRegister` (the returned record is unused by the generator, so
only the state effect is modelled; popping a non-temporary is the warned
no-op). -/
def FunctionObject.popTempRegister (fn : FunctionObject) : FunctionObject :=
  match fn.locals.getLast? with
  | none => fn
  | some last =>
      if !last.temp then fn
      else { fn with locals := fn.locals.dropLast }

def FunctionObject.addLocal (fn : FunctionObject) (name : String) :
    Int × FunctionObject :=
  let address : Int := fn.locals.length
  (address,
    { fn with locals := fn.locals ++
        [{ name := name, depth := fn.scopeDepth, temp := false,
           address := address }] })

/-- `lookupLocal`: linear search from the top (shadowing). -/
def FunctionObject.lookupLocal (fn : FunctionObject) (name : String) :
    Option LocalRegister :=
  fn.locals.reverse.find? (fun l => l.name == name)

def FunctionObject.emit (fn : FunctionObject) (opcode : Opcode)
    (operands : List GoOperand) : Nat × FunctionObject :=
  (fn.instructions.length,
    { fn with instructions := fn.instructions ++ [⟨opcode, operands⟩] })

/-- `PatchInstruction`: overwrite the operands, keep the opcode.  (Patching
an out-of-range address would be a Go panic; the generator only patches
addresses it previously emitted.) -/
def FunctionObject.PatchInstruction (fn : FunctionObject)
    (opcodeAddress : Nat) (operands : List GoOperand) : FunctionObject :=
  match fn.instructions.get? opcodeAddress with
  | none => fn
  | some instr =>
      { fn with instructions :=
          fn.instructions.set opcodeAddress { instr with operands := operands } }

/-- `ForLoopContext`; the `parent` chain is the generator's list. -/
structure ForLoopContext where
  conditionAddress : Nat
  endBranches : List Nat
  conditionBranches : List Nat

/-- The `RVMGenerator` state: `fns` is the current function followed by
its `parent` chain; `heap` backs `*FunctionObject` payloads (`funcPtr`). -/
structure GenState where
  fns : List FunctionObject
  forCtx : List ForLoopContext
  lastBlockExpressionRegister : Int
  heap : List FunctionObject

namespace GenState

def curFn (g : GenState) : FunctionObject :=
  match g.fns with
  | [] => ⟨"", [], [], [], 0⟩
  | f :: _ => f

def mapFn (g : GenState) (f : FunctionObject → FunctionObject) : GenState :=
  match g.fns with
  | [] => g
  | c :: r => { g with fns := f c :: r }

def withFn {α : Type} (g : GenState)
    (f : FunctionObject → α × FunctionObject) : α × GenState :=
  let r := f g.curFn
  (r.1, g.mapFn fun _ => r.2)

def addTemp (g : GenState) : Int × GenState := g.withFn (·.addTemp)

def addLocal (g : GenState) (name : String) : Int × GenState :=
  g.withFn (·.addLocal name)

def bindLocal (g : GenState) (register : Int) (name : String) :
    Bool × GenState :=
  g.withFn (·.bindLocal register name)

def emit (g : GenState) (opcode : Opcode) (operands : List GoOperand) :
    Nat × GenState :=
  g.withFn (·.emit opcode operands)

def emitConstantValue (g : GenState) (v : OperandValue) : Nat × GenState :=
  g.withFn (·.emitConstantValue v)

def patch (g : GenState) (addr : Nat) (operands : List GoOperand) :
    GenState :=
  g.mapFn (·.PatchInstruction addr operands)

def popTemp (g : GenState) : GenState := g.mapFn (·.popTempRegister)

def freeAllTemps (g : GenState) : GenState := g.mapFn (·.freeAllTempRegister)

def enterScope (g : GenState) : GenState := g.mapFn (·.enterScope)

def leaveScope (g : GenState) : GenState := g.mapFn (·.leaveScope)

def instrLen (g : GenState) : Nat := g.curFn.instructions.length

def lookupConstant (g : GenState) (name : String) : Option OperandValue :=
  lookupConstantChain g.fns name

/-- `addConstant` on the current function (its duplicate check runs
`lookupConstant`, i.e. walks the whole parent chain). -/
def addConstant (g : GenState) (name : String) (v : OperandValue) :
    Except GenError GenState :=
  if (lookupConstantChain g.fns name).isSome then
    .error (.constantExists name)
  else
    .ok (g.mapFn fun fn =>
      { fn with constants := fn.constants ++ [⟨name, v⟩] })

def patchAll (g : GenState) (addrs : List Nat) (operands : List GoOperand) :
    GenState :=
  addrs.foldl (fun g a => g.patch a operands) g

end GenState

mutual

/-- `emitExpression` (part_002 lines 244-383).  The recursion is kept
structural so that the generator evaluates definitionally; to that end the
one-line wrapper `emitExpressionAligned` (emit, then free all temporary
registers) is inlined at each of its call sites, and the `ElseBlock`
dispatch of the if-expression case is the mutual function `genElse`. -/
def genExpr (g : GenState) : Expr → Except GenError (Int × GenState)
  | .ifExpr cond thenB elseB => do
      -- emitExpressionAligned(expr.Condition)
      let pr ← genExpr g cond
      let condRegister := pr.1
      let g := pr.2.freeAllTemps
      let (falseBranch, g) := g.emit .JumpIf []
      let (resultRegister, g) := g.addTemp
      let g := { g with lastBlockExpressionRegister := -1 }
      -- `g.emitStatement(expr.ThenBlock)` — the block-statement case:
      -- enter scope, emit the statements, leave scope.
      let g ← genStmts (g.enterScope) thenB
      let g := g.leaveScope
      let g :=
        if g.lastBlockExpressionRegister ≠ -1 then
          (g.emit .Move [.reg resultRegister,
            .reg g.lastBlockExpressionRegister]).2
        else g
      let (thenBranch, g) := g.emit .Jump []
      let g := g.patch falseBranch
        [.reg condRegister, .bool false, .int (g.instrLen : Int)]
      let g ← genElse g resultRegister elseB
      let g := g.patch thenBranch [.int (g.instrLen : Int)]
      .ok (resultRegister, g)
  | .unary op right => do
      let (targetReg, g) := g.addTemp
      let (operandReg, g) ← genExpr g right
      match op with
      | .bang => .ok (targetReg,
          (g.emit .Not [.reg targetReg, .reg operandReg]).2)
      | .minus => .ok (targetReg,
          (g.emit .Neg [.reg targetReg, .reg operandReg]).2)
      | .plus => .ok (targetReg, g)
  | .call fname retVoid args => do
      let (calleeReg, g) := g.addTemp
      let functionRef ←
        (match g.lookupConstant fname with
          | some v => .ok v
          | none => .error (.unresolvedFunction fname) :
            Except GenError OperandValue)
      let (idx, g) := g.emitConstantValue functionRef
      let g := (g.emit .LoadConst [.reg calleeReg, .cidx idx]).2
      let g ← genCallArgs g args
      let returns : Int := if retVoid then 0 else 1
      let g := (g.emit .Call [.reg calleeReg, .int (args.length : Int),
        .int returns]).2
      let g := (List.range args.length).foldl (fun g _ => g.popTemp) g
      .ok (calleeReg, g)
  | .assign op left right => do
      let (leftReg, g) ← genExpr g left
      if op = .assign then do
        let (rightReg, g) ← genExpr g right
        .ok (leftReg, (g.emit .Move [.reg leftReg, .reg rightReg]).2)
      else do
        let (rightReg, g) ← genExpr g right
        .ok (leftReg, (g.emit (mappedAssignOperatorsToOpcodes op)
          [.reg leftReg, .reg leftReg, .reg rightReg]).2)
  | .binary op left right => do
      let (targetReg, g) := g.addTemp
      let (leftReg, g) ← genExpr g left
      let (rightReg, g) ← genExpr g right
      let g := g.popTemp
      .ok (targetReg, (g.emit (mappedBinaryOperatorsToOpcodes op)
        [.reg targetReg, .reg leftReg, .reg rightReg]).2)
  | .intLit n => do
      let (targetReg, g) := g.addTemp
      let v ← getOperandValueFromConstant (.intLit n)
      let (idx, g) := g.emitConstantValue v
      .ok (targetReg, (g.emit .LoadConst [.reg targetReg, .cidx idx]).2)
  | .floatLit q => do
      let (targetReg, g) := g.addTemp
      let v ← getOperandValueFromConstant (.floatLit q)
      let (idx, g) := g.emitConstantValue v
      .ok (targetReg, (g.emit .LoadConst [.reg targetReg, .cidx idx]).2)
  | .boolLit b => do
      let (reg, g) := g.addTemp
      .ok (reg, (g.emit .LoadBool [.reg reg, .bool b]).2)
  | .strLit s => do
      let (reg, g) := g.addTemp
      .ok (reg, (g.emit .LoadString [.reg reg, .str s]).2)
  | .ident name =>
      match g.curFn.lookupLocal name with
      | some loc => .ok (loc.address, g)
      | none =>
          match g.lookupConstant name with
          | none => .error (.unresolvedSymbol name)
          | some _ =>
              let (registerId, g) := g.addTemp
              -- the operand emitted here is `expr.Value`, the identifier's
              -- NAME (a Go string), not a ConstantValueIdx
              .ok (registerId,
                (g.emit .LoadConst [.reg registerId, .str name]).2)

/-- The `ElseBlock` switch of the if-expression case: nothing for nil, the
block-statement emission for a block, `emitExpressionAligned` for a nested
if-expression. -/
def genElse (g : GenState) (resultRegister : Int) :
    ElseBranch → Except GenError GenState
  | .noneB => .ok g
  | .blockB stmts => do
      let g := { g with lastBlockExpressionRegister := -1 }
      let g ← genStmts (g.enterScope) stmts
      let g := g.leaveScope
      .ok (if g.lastBlockExpressionRegister ≠ -1 then
          (g.emit .Move [.reg resultRegister,
            .reg g.lastBlockExpressionRegister]).2
        else g)
  | .ifB e => do
      let pr ← genExpr g e
      .ok pr.2.freeAllTemps

/-- The argument loop of the call case: emit each argument and copy named
locals into fresh temporaries. -/
def genCallArgs (g : GenState) : List Expr → Except GenError GenState
  | [] => .ok g
  | arg :: rest => do
      let (register, g) ← genExpr g arg
      let g :=
        if 0 ≤ register ∧ register < (g.curFn.locals.length : Int) ∧
            !((g.curFn.locals.get? register.toNat).elim true (·.temp)) then
          let (tempRegister, g) := g.addTemp
          (g.emit .Move [.reg tempRegister, .reg register]).2
        else g
      genCallArgs g rest

/-- `emitStatement` (part_002 lines 99-191) together with
`visitVarDeclaration` and `visitFuncDeclaration` (inlined, as in the Go
dispatch). -/
def genStmt (g : GenState) : Stmt → Except GenError GenState
  | .constDecl name _ value => do
      let v ← getOperandValueFromConstant value
      g.addConstant name v
  | .varDecl name _ none => .ok (g.addLocal name).2
  | .varDecl name _ (some value) => do
      -- emitExpressionAligned(decl.Value)
      let pr ← genExpr g value
      let leftRegister := pr.1
      let g := pr.2.freeAllTemps
      let (bound, g) := g.bindLocal leftRegister name
      if bound then .ok g
      else
        let (registerId, g) := g.addLocal name
        if leftRegister ≠ registerId then
          .ok (g.emit .Move [.reg registerId, .reg leftRegister]).2
        else .ok g
  | .funcDecl name params _ body => do
      let fid := g.heap.length
      let child : FunctionObject :=
        { name := name, instructions := [], locals := [], constants := [],
          scopeDepth := 0 }
      let g ← g.addConstant name ⟨.functionObject, .funcPtr fid⟩
      let g := { g with fns := child :: g.fns, heap := g.heap ++ [child] }
      let g := params.foldl (fun g p => (g.addLocal p.1).2) g
      let g ← genStmts g body
      let g := (g.emit .Return [.reg 0, .int 0]).2
      match g.fns with
      | [] => .ok g
      | finished :: rest =>
          .ok { g with fns := rest, heap := g.heap.set fid finished }
  | .forRange varName start stop inclusive body => do
      let g := g.enterScope
      let (loopVar, g) := g.addLocal varName
      -- emitExpressionAligned(statement.Range.Start)
      let pr ← genExpr g start
      let startReg := pr.1
      let g := pr.2.freeAllTemps
      let g := (g.emit .Move [.reg loopVar, .reg startReg]).2
      let (endReg, g) ← genExpr g stop
      let (_, g) := g.bindLocal endReg "<for_loop_range_end>"
      let (condReg, g) := g.addTemp
      let (conditionAddress, g) :=
        if inclusive then
          g.emit .Lte [.reg condReg, .reg loopVar, .reg endReg]
        else
          g.emit .Lt [.reg condReg, .reg loopVar, .reg endReg]
      let (falseBranch, g) := g.emit .JumpIf []
      let g := g.popTemp
      let g := { g with forCtx :=
        ⟨conditionAddress, [], []⟩ :: g.forCtx }
      let g ← genStmts g body
      let (oneReg, g) := g.addTemp
      let g := g.popTemp
      let (oneIdx, g) := g.emitConstantValue ⟨.int64, .i64 1⟩
      let (incrementAddr, g) := g.emit .LoadConst [.reg oneReg, .cidx oneIdx]
      let g := (g.emit .Add [.reg loopVar, .reg loopVar, .reg oneReg]).2
      let g := (g.emit .Jump [.int (conditionAddress : Int)]).2
      let ctx := match g.forCtx with
        | [] => (⟨0, [], []⟩ : ForLoopContext)
        | c :: _ => c
      let g := g.patchAll ctx.conditionBranches [.int (incrementAddr : Int)]
      let endLoopAddress := g.instrLen
      let g := g.patch falseBranch
        [.reg condReg, .bool false, .int (endLoopAddress : Int)]
      let g := g.patchAll ctx.endBranches [.int (endLoopAddress : Int)]
      let g := { g with forCtx := g.forCtx.tail }
      .ok g.leaveScope
  | .breakStmt =>
      (match g.forCtx with
        | [] => .error .breakOutsideLoop
        | ctx :: rest =>
            let (addr, g') := g.emit .Jump []
            .ok { g' with forCtx :=
              { ctx with endBranches := ctx.endBranches ++ [addr] } :: rest })
  | .continueStmt =>
      (match g.forCtx with
        | [] => .error .continueOutsideLoop
        | ctx :: rest =>
            let (addr, g') := g.emit .Jump []
            .ok { g' with forCtx :=
              { ctx with conditionBranches :=
                  ctx.conditionBranches ++ [addr] } :: rest })
  | .returnStmt none =>
      -- a nil return expression reaches `emitExpression(nil)`, which
      -- falls through to the "unknown expression type" panic
      .error .unknownExpression
  | .returnStmt (some e) => do
      -- emitExpressionAligned(statement.Expression)
      let pr ← genExpr g e
      let returnRegister := pr.1
      let g := pr.2.freeAllTemps
      .ok (g.emit .Return [.reg returnRegister, .int 1]).2
  | .exprStmt e => do
      -- emitExpressionAligned(statement.Expression)
      let pr ← genExpr g e
      let g := pr.2.freeAllTemps
      .ok { g with lastBlockExpressionRegister := pr.1 }
  | .block stmts => do
      let g ← genStmts (g.enterScope) stmts
      .ok g.leaveScope

def genStmts (g : GenState) : List Stmt → Except GenError GenState
  | [] => .ok g
  | s :: rest => do
      let g ← genStmt g s
      genStmts g rest

end

/-- `emitExpressionAligned` (its body is inlined at every generator call
site to keep the mutual recursion structural). -/
def genExprAligned (g : GenState) (e : Expr) :
    Except GenError (Int × GenState) := do
  let pr ← genExpr g e
  .ok (pr.1, pr.2.freeAllTemps)

/-- `NewRVMGenerator` followed by `Generate`: build the module function.
The `BuildInFunctions` registry has the single entry `println`, so the
builtin-constant loop adds exactly that constant.  Returns the module and
the function heap backing `funcPtr` payloads. -/
def generate (prog : List Stmt) :
    Except GenError (FunctionObject × List FunctionObject) := do
  let moduleFunction : FunctionObject :=
    { name := "<module>",
      instructions := [], locals := [],
      constants := [⟨"println", ⟨.buildInFunction, .str "println"⟩⟩],
      scopeDepth := 0 }
  let g0 : GenState :=
    { fns := [moduleFunction], forCtx := [],
      lastBlockExpressionRegister := 0, heap := [] }
  let g ← genStmts g0 prog
  .ok (g.curFn, g.heap)

/-! ## Constant folder (`src/unnamed/part_011`, package `transformer`)

`evaluateConstant` walks Return/Block/VarDecl statements and binary
expressions; a binary expression over two integer literals is folded with
Go `int64` arithmetic.  The Go division/modulo in the folder has no zero
check, so a zero denominator is a Go runtime panic at fold time, modelled
as the `Except` error. -/

inductive FoldPanic where
  /-- Go runtime panic `integer divide by zero` inside the folder. -/
  | intDivideByZero
deriving DecidableEq

/-- `ast.IsConstantASTNode`. -/
def IsConstantASTNode : Expr → Bool
  | .intLit _ | .floatLit _ | .boolLit _ | .strLit _ => true
  | _ => false

/-- The operator switch of the fold (part_011 lines 46-83): `some v` is the
folded literal value, `none` means the operator is not folded (the switch
falls through and the binary node is returned). -/
def foldIntBinary (op : BinOp) (leftInt rightInt : Int) :
    Except FoldPanic (Option Int) :=
  match op with
  | .plus => .ok (some (wrap64 (leftInt + rightInt)))
  | .minus => .ok (some (wrap64 (leftInt - rightInt)))
  | .asterisk => .ok (some (wrap64 (leftInt * rightInt)))
  | .slash =>
      if rightInt = 0 then .error .intDivideByZero
      else .ok (some (wrap64 (Int.tdiv leftInt rightInt)))
  | .percent =>
      if rightInt = 0 then .error .intDivideByZero
      else .ok (some (Int.tmod leftInt rightInt))
  | .exponent => .ok (some (goMathPowI64 leftInt rightInt))
  | _ => .ok (none)

mutual

/-- `evaluateConstant` on expressions.  Note the faithful detail that in
the not-both-int-literals case the ORIGINAL children are returned (the Go
code returns `node` without assigning the recursed `left`/`right` back),
although the recursion has already run (and can panic). -/
def evaluateConstantExpr : Expr → Except FoldPanic Expr
  | .binary op left right => do
      let left' ← evaluateConstantExpr left
      let right' ← evaluateConstantExpr right
      match left', right' with
      | .intLit leftInt, .intLit rightInt =>
          if IsConstantASTNode left' && IsConstantASTNode right' then do
            match ← foldIntBinary op leftInt rightInt with
            | some v => .ok (.intLit v)
            | none => .ok (.binary op left right)
          else .ok (.binary op left right)
      | _, _ => .ok (.binary op left right)
  | e => .ok e

/-- `evaluateConstant` on statements (the Return/Block/VarDecl cases; every
other statement is returned unchanged by the default case). -/
def evaluateConstantStmt : Stmt → Except FoldPanic Stmt
  | .returnStmt eOpt =>
      (match eOpt with
        | none => .ok (.returnStmt none)
        | some e => do
            let e' ← evaluateConstantExpr e
            .ok (.returnStmt (some e')))
  | .block stmts => do
      let stmts' ← evaluateConstantStmts stmts
      .ok (.block stmts')
  | .varDecl name ty valueOpt =>
      (match valueOpt with
        | none => .ok (.varDecl name ty none)
        | some v => do
            let v' ← evaluateConstantExpr v
            .ok (.varDecl name ty (some v')))
  | s => .ok s

def evaluateConstantStmts : List Stmt → Except FoldPanic (List Stmt)
  | [] => .ok []
  | s :: rest => do
      let s' ← evaluateConstantStmt s
      let rest' ← evaluateConstantStmts rest
      .ok (s' :: rest')

end

/-- `transformer.Transform`: fold each top-level statement. -/
def transform (prog : List Stmt) : Except FoldPanic (List Stmt) :=
  evaluateConstantStmts prog

/-! ## Checker types (`src/unnamed/part_010` and
`src/frontend/checker/env/types.go`) -/

inductive ChlangPrimitiveType where
  | invalid
  | int8
  | int16
  | int32
  | int64
  | uint8
  | uint16
  | uint32
  | uint64
  | float32
  | float64
  | boolType
  | stringType
  | voidType
deriving DecidableEq

namespace ChlangPrimitiveType

/-- The Go `iota` value, carrying the ladder ordering. -/
def val : ChlangPrimitiveType → Nat
  | .invalid => 0
  | .int8 => 1
  | .int16 => 2
  | .int32 => 3
  | .int64 => 4
  | .uint8 => 5
  | .uint16 => 6
  | .uint32 => 7
  | .uint64 => 8
  | .float32 => 9
  | .float64 => 10
  | .boolType => 11
  | .stringType => 12
  | .voidType => 13

def IsFloat : ChlangPrimitiveType → Bool
  | .float32 | .float64 => true
  | _ => false

def IsSigned : ChlangPrimitiveType → Bool
  | .int8 | .int16 | .int32 | .int64 => true
  | _ => false

def IsUnsigned : ChlangPrimitiveType → Bool
  | .uint8 | .uint16 | .uint32 | .uint64 => true
  | _ => false

def IsInteger (t : ChlangPrimitiveType) : Bool := t.IsSigned || t.IsUnsigned

def IsNumeric (t : ChlangPrimitiveType) : Bool := t.IsInteger || t.IsFloat

end ChlangPrimitiveType

/-- `GetMaxType`. -/
def GetMaxType (a b : ChlangPrimitiveType) : ChlangPrimitiveType :=
  if b.val < a.val then a else b

/-- `ChlangType`: the embedded fragment covers primitives, arrays and
function types (struct/trait types are never constructed by the embedded
programs). -/
inductive ChlangType where
  | prim (p : ChlangPrimitiveType)
  | array (elem : ChlangType) (length : Int)
  | func (args : List ChlangType) (spread : Option ChlangType)
      (ret : ChlangType)

/-- Go interface equality `left == right` on `ChlangType` values:
`ChlangPrimitiveType` is a value type and compares by value;
`*ChlangArrayType` / `*ChlangFunctionType` are pointers, and in the
embedded fragment composite types reaching a comparison always come from
distinct allocations, so their pointer equality is false. -/
def ctypeGoEq : ChlangType → ChlangType → Bool
  | .prim p, .prim q => p = q
  | _, _ => false

def invalidType : ChlangType := .prim .invalid

/-- `env.IsLeftCompatibleType`. -/
def IsLeftCompatibleType : ChlangType → ChlangType → Bool
  | .prim lp, .prim rp =>
      (lp = rp) ||
      (((lp.IsFloat && rp.IsFloat) || (lp.IsSigned && rp.IsSigned) ||
        (lp.IsUnsigned && rp.IsUnsigned)) && rp.val ≤ lp.val)
  | .array le ll, .array re rl =>
      IsLeftCompatibleType le re && (ll == rl || ll == 0)
  | _, _ => false

mutual

/-- `env.IsCompatibleType`. -/
def IsCompatibleType : ChlangType → ChlangType → Bool
  | .prim lp, .prim rp => (lp = rp) || (lp.IsNumeric && rp.IsNumeric)
  | .array le ll, .array re rl =>
      IsCompatibleType le re && (ll == rl || ll == 0 || rl == 0)
  | .func la _ lr, .func ra _ rr =>
      la.length == ra.length && IsCompatibleTypeList la ra &&
      IsCompatibleType lr rr
  | _, _ => false

def IsCompatibleTypeList : List ChlangType → List ChlangType → Bool
  | [], _ => true
  | _ :: _, [] => true
  | l :: ls, r :: rs => IsCompatibleType l r && IsCompatibleTypeList ls rs

end

/-! ## Environment (`src/unnamed/part_009`, package `env`) -/

inductive SymbolEntityType where
  | variableEntity
  | functionEntity
  | constantEntity
deriving DecidableEq

/-- `EnvSymbolEntity` (the `Span` field and the pointer aliasing of
`FunctionArgs` into scopes — observable only through the unused-symbol
diagnostic — are elided; `FunctionArgs` keeps the data the checker reads:
argument names and types). -/
structure EnvSymbolEntity where
  Name : String
  Used : Bool
  /-- The Go field `Type` (renamed: `Type` is a Lean keyword). -/
  Ty : ChlangType
  EntityType : SymbolEntityType
  FunctionArgs : List (String × ChlangType)

structure EnvTypeEntity where
  Name : String
  Used : Bool
  Spec : ChlangType

/-- One lexical scope: two name-keyed maps, modelled as association lists
with distinct keys (insertion refuses duplicates, lookup is key-based, so
map iteration order is unobservable here). -/
structure EnvScope where
  symbols : List (String × EnvSymbolEntity)
  types : List (String × EnvTypeEntity)

/-- `Env.Local` with its parent chain, head first.  The root scope is the
last element; `CloseScope` on the root is a no-op. -/
def Env' : Type := List EnvScope

def envOpenScope (env : Env') : Env' := ⟨[], []⟩ :: env

def envCloseScope (env : Env') : Env' :=
  match env with
  | [] => []
  | [root] => [root]
  | _ :: rest => rest

def envInsertSymbol (env : Env') (sym : EnvSymbolEntity) : Bool × Env' :=
  match env with
  | [] => (false, env)
  | scope :: rest =>
      if (scope.symbols.find? (fun p => p.1 == sym.Name)).isSome then
        (false, env)
      else (true, { scope with symbols := scope.symbols ++ [(sym.Name, sym)] } :: rest)

def envInsertType (env : Env') (t : EnvTypeEntity) : Bool × Env' :=
  match env with
  | [] => (false, env)
  | scope :: rest =>
      if (scope.types.find? (fun p => p.1 == t.Name)).isSome then
        (false, env)
      else (true, { scope with types := scope.types ++ [(t.Name, t)] } :: rest)

def envLookupSymbolLocal (env : Env') (name : String) :
    Option EnvSymbolEntity :=
  match env with
  | [] => none
  | scope :: _ => (scope.symbols.find? (fun p => p.1 == name)).map (·.2)

def envLookupSymbol (env : Env') (name : String) : Option EnvSymbolEntity :=
  match env with
  | [] => none
  | scope :: rest =>
      match scope.symbols.find? (fun p => p.1 == name) with
      | some p => some p.2
      | none => envLookupSymbol rest name

def envLookupType (env : Env') (name : String) : Option EnvTypeEntity :=
  match env with
  | [] => none
  | scope :: rest =>
      match scope.types.find? (fun p => p.1 == name) with
      | some p => some p.2
      | none => envLookupType rest name

/-- `sym.Used = true` through the pointer returned by lookup: update the
entry in the nearest scope that binds the name. -/
def envMarkSymbolUsed (env : Env') (name : String) : Env' :=
  match env with
  | [] => []
  | scope :: rest =>
      if (scope.symbols.find? (fun p => p.1 == name)).isSome then
        { scope with symbols := scope.symbols.map fun p =>
            if p.1 == name then (p.1, { p.2 with Used := true }) else p } :: rest
      else scope :: envMarkSymbolUsed rest name

/-- `ty.Used = true` through the pointer returned by type lookup. -/
def envMarkTypeUsed (env : Env') (name : String) : Env' :=
  match env with
  | [] => []
  | scope :: rest =>
      if (scope.types.find? (fun p => p.1 == name)).isSome then
        { scope with types := scope.types.map fun p =>
            if p.1 == name then (p.1, { p.2 with Used := true }) else p } :: rest
      else scope :: envMarkTypeUsed rest name

/-- `initDefaultTypes`: the primitive type catalog of `symbolTags`
(iteration order of the Go map is unobservable: keys are distinct). -/
def defaultTypes : List (String × EnvTypeEntity) :=
  [ ("i8", ⟨"i8", true, .prim .int8⟩),
    ("i16", ⟨"i16", true, .prim .int16⟩),
    ("i32", ⟨"i32", true, .prim .int32⟩),
    ("i64", ⟨"i64", true, .prim .int64⟩),
    ("u8", ⟨"u8", true, .prim .uint8⟩),
    ("u16", ⟨"u16", true, .prim .uint16⟩),
    ("u32", ⟨"u32", true, .prim .uint32⟩),
    ("u64", ⟨"u64", true, .prim .uint64⟩),
    ("f32", ⟨"f32", true, .prim .float32⟩),
    ("f64", ⟨"f64", true, .prim .float64⟩),
    ("bool", ⟨"bool", true, .prim .boolType⟩),
    ("string", ⟨"string", true, .prim .stringType⟩),
    ("void", ⟨"void", true, .prim .voidType⟩) ]

/-- `NewEnv`. -/
def newEnv : Env' := [⟨[], defaultTypes⟩]

/-! ## Checker (`src/unnamed/part_007`, first unit, package `checker`)

Diagnostics carry structured tags in place of the Go format strings; each
constructor corresponds to one `SemanticError` site of the embedded
paths. -/

inductive CheckError where
  | typeNotFound (name : String)
  | constUsesTypeName (name : String)
  | alreadyDeclared (name : String)
  | constNotPrimitive (name : String)
  | constTypeMismatch (name : String)
  | varTypeMismatch (name : String)
  | varNeedsTypeOrValue (name : String)
  | varInvalidType (name : String)
  | funcUsesTypeName (name : String)
  | invalidReturnType (name : String)
  | mainMustReturnVoid
  | unknownArgType (name : String)
  | voidArgType
  | returnOutsideFunction
  | returnTypeMismatch
  | identifierNotFound (name : String)
  | assignLeftNotIdentifier
  | assignTypeMismatch
  | functionNotFound (name : String)
  | notAFunction (name : String)
  | argCountMismatch (name : String)
  | argTypeMismatch (name : String)
  | intLiteralRange
  | invalidUnaryOperand
  | unaryRequiresNumeric
  | unaryMinusOnUnsigned
  | unaryRequiresBool
  | binaryTypeMismatch
  | comparisonTypeMismatch
  | ifConditionNotBool
  | ifBranchesIncompatible
deriving DecidableEq

structure CheckerState where
  env : Env'
  errors : List CheckError
  /-- `c.function`: the symbol of the function currently being checked. -/
  function : Option EnvSymbolEntity

def CheckerState.report (c : CheckerState) (e : CheckError) : CheckerState :=
  { c with errors := c.errors ++ [e] }

/-- `resolveASTType` on the fragment's type annotations (type names). -/
def resolveASTType (c : CheckerState) (name : String) :
    ChlangType × CheckerState :=
  match envLookupType c.env name with
  | none => (invalidType, c.report (.typeNotFound name))
  | some t => (t.Spec, { c with env := envMarkTypeUsed c.env name })

/-- `inferIntLiteral`: the smallest signed kind containing the value; the
`ParseInt` failure (value outside int64) is the range diagnostic. -/
def inferIntLiteral (c : CheckerState) (n : Int) :
    ChlangType × CheckerState :=
  if ¬InI64 n then (invalidType, c.report .intLiteralRange)
  else if -128 ≤ n ∧ n ≤ 127 then (.prim .int8, c)
  else if -32768 ≤ n ∧ n ≤ 32767 then (.prim .int16, c)
  else if -2147483648 ≤ n ∧ n ≤ 2147483647 then (.prim .int32, c)
  else (.prim .int64, c)

/-- `getGeneralTypeOf`. -/
def getGeneralTypeOf : ChlangType → ChlangType
  | .prim p =>
      if p.IsFloat then .prim .float64
      else if p.IsUnsigned then .prim (GetMaxType .uint32 p)
      else if p.IsSigned then .prim (GetMaxType .int32 p)
      else .prim p
  | .array e l => .array (getGeneralTypeOf e) l
  | t => t

/-- `getMaxTypeOf`. -/
def getMaxTypeOf (l r : ChlangType) : ChlangType :=
  match l, r with
  | .prim lp, .prim rp => .prim (GetMaxType lp rp)
  | _, _ => l

/-- The operators of the first case of `checkTypesCompatibility`
(arithmetic and bitwise). -/
def isArithOrBitwiseToken : BinOp → Bool
  | .plus | .minus | .asterisk | .exponent | .percent | .slash
  | .ampersand | .pipe | .caret | .leftShift | .rightShift => true
  | _ => false

/-- `checkTypesCompatibility` (both switch cases; the `BinOp` type has
exactly the tokens of the two cases, so the unknown-operator default is
unrepresentable). -/
def checkTypesCompatibility (a b : ChlangType) (op : BinOp) :
    Except CheckError ChlangType :=
  if isArithOrBitwiseToken op then
    match a, b with
    | .prim lp, .prim rp =>
        if lp.IsNumeric && rp.IsNumeric then
          if ctypeGoEq a b then .ok a
          else if lp.IsFloat || rp.IsFloat then .ok (.prim .float64)
          else if lp.IsSigned && rp.IsSigned then .ok (.prim (GetMaxType lp rp))
          else if lp.IsUnsigned && rp.IsUnsigned then
            .ok (.prim (GetMaxType lp rp))
          else .error .binaryTypeMismatch
        else .error .binaryTypeMismatch
    | _, _ => .error .binaryTypeMismatch
  else
    if IsCompatibleType a b then .ok (.prim .boolType)
    else .error .comparisonTypeMismatch

/-- `visitFuncSignature`. -/
def visitFuncSignature (c : CheckerState) (name : String)
    (params : List (String × String)) (retType : Option String) :
    CheckerState :=
  if (envLookupType c.env name).isSome then c.report (.funcUsesTypeName name)
  else if (envLookupSymbolLocal c.env name).isSome then
    c.report (.alreadyDeclared name)
  else
    let retC : ChlangType × CheckerState :=
      match retType with
      | none => (.prim .voidType, c)
      | some t => resolveASTType c t
    let ret := retC.1
    let c := retC.2
    if ctypeGoEq ret invalidType then c.report (.invalidReturnType name)
    else
      let used := name == "main"
      if name == "main" && !ctypeGoEq ret (.prim .voidType) then
        c.report .mainMustReturnVoid
      else
        let argsC := params.foldl
          (fun (acc : List ChlangType × CheckerState) p =>
            let r := resolveASTType acc.2 p.2
            let argType := r.1
            let c := r.2
            let c :=
              if ctypeGoEq argType invalidType then
                c.report (.unknownArgType p.1)
              else if ctypeGoEq argType (.prim .voidType) then
                c.report .voidArgType
              else c
            (acc.1 ++ [argType], c)) ([], c)
        let funcSymbol : EnvSymbolEntity :=
          { Name := name, Used := used,
            Ty := .func argsC.1 none ret,
            EntityType := .functionEntity,
            FunctionArgs := (params.zip argsC.1).map fun pq => (pq.1.1, pq.2) }
        -- an InsertSymbol failure here is the Go `panic("unexpected
        -- error")`, unreachable after the local-lookup check above
        { argsC.2 with env := (envInsertSymbol argsC.2.env funcSymbol).2 }

/-- `populateSymbolDeclarations`: hoist function signatures (the
type/struct/trait/impl cases concern nodes outside the fragment). -/
def populateSymbolDeclarations (c : CheckerState) (stmts : List Stmt) :
    CheckerState :=
  stmts.foldl
    (fun c s =>
      match s with
      | .funcDecl name params retType _ => visitFuncSignature c name params retType
      | _ => c) c

/-- `addBuiltinFunctions`: `println : (...string) -> void`. -/
def addBuiltinFunctions (c : CheckerState) : CheckerState :=
  { c with env := (envInsertSymbol c.env
      { Name := "println", Used := true,
        Ty := .func [] (some (.prim .stringType)) (.prim .voidType),
        EntityType := .functionEntity, FunctionArgs := [] }).2 }

/-- The function-signature check of the return statement (shared tail of
the two `returnStmt` cases of `visitStatement`). -/
def returnStmtCheck (c : CheckerState) (exprReturnType : ChlangType) :
    CheckerState :=
  match c.function with
  | none => c.report .returnOutsideFunction
  | some f =>
      match f.Ty with
      | .func _ _ ret =>
          if !IsLeftCompatibleType ret exprReturnType then
            c.report .returnTypeMismatch
          else c
      | _ => c

/-- The tail of `visitVarDeclaration`: the invalid-type diagnostic (no
early return) followed by the insertion. -/
def visitVarDeclFinish (c : CheckerState) (name : String)
    (varType : ChlangType) : CheckerState :=
  let c :=
    if ctypeGoEq varType invalidType then c.report (.varInvalidType name)
    else c
  { c with env := (envInsertSymbol c.env
      { Name := name, Used := false, Ty := varType,
        EntityType := .variableEntity, FunctionArgs := [] }).2 }

mutual

/-- `inferExpression` (part_007 lines 558-908 on the fragment).  The
recursion is structural: the `ElseBlock` switch of the if-expression case
is the mutual function `inferElseBlockType`, `inferIfBlockStatement` is
inlined at its call sites, and the statement-level visitors
(`visitConstDeclaration`, `visitVarDeclaration`, `visitFuncBody`) are
inlined in `visitStatement` (standalone definitions below restate them and
are definitionally equal to the inlined cases). -/
def inferExpression (c : CheckerState) : Expr → ChlangType × CheckerState
  | .ident name =>
      (match envLookupSymbol c.env name with
        | none => (invalidType, c.report (.identifierNotFound name))
        | some sym => (sym.Ty, { c with env := envMarkSymbolUsed c.env name }))
  | .assign _ left right =>
      let lr := inferExpression c left
      let rr := inferExpression lr.2 right
      let leftType := lr.1
      let rightType := rr.1
      let c := rr.2
      if ctypeGoEq leftType invalidType || ctypeGoEq rightType invalidType then
        (invalidType, c)
      else
        -- `chToken.IsAssignment` holds for every `AssignOp`
        match left with
        | .ident _ =>
            if !IsLeftCompatibleType leftType rightType then
              (invalidType, c.report .assignTypeMismatch)
            else (leftType, c)
        | _ => (invalidType, c.report .assignLeftNotIdentifier)
  | .call fname _ args =>
      (match envLookupSymbol c.env fname with
        | none => (invalidType, c.report (.functionNotFound fname))
        | some sym =>
            if sym.EntityType ≠ .functionEntity then
              (invalidType, c.report (.notAFunction fname))
            else
              match sym.Ty with
              | .func fargs spread ret =>
                  (match spread with
                    | none =>
                        if fargs.length ≠ args.length then
                          (invalidType, c.report (.argCountMismatch fname))
                        else
                          let c := checkCallArgs c fname fargs args
                          (ret, { c with env := envMarkSymbolUsed c.env fname })
                    | some _ =>
                        let r := inferSpreadArgs c args
                        if r.1 then
                          (ret, { r.2 with env := envMarkSymbolUsed r.2.env fname })
                        else (invalidType, r.2))
              | _ =>
                  -- `fnSymbol.Type.(*env.ChlangFunctionType)`: a function
                  -- symbol always carries a function type
                  (invalidType, c))
  | .strLit _ => (.prim .stringType, c)
  | .intLit n => inferIntLiteral c n
  | .floatLit _ => (.prim .float64, c)
  | .boolLit _ => (.prim .boolType, c)
  | .unary op right =>
      let rr := inferExpression c right
      let rightType := rr.1
      let c := rr.2
      if ctypeGoEq rightType invalidType then
        (invalidType, c.report .invalidUnaryOperand)
      else
        (match op with
          | .minus | .plus =>
              (match rightType with
                | .prim p =>
                    if !p.IsNumeric then
                      (invalidType, c.report .unaryRequiresNumeric)
                    else if p.IsUnsigned && op = .minus then
                      (invalidType, c.report .unaryMinusOnUnsigned)
                    else (rightType, c)
                | _ => (invalidType, c.report .unaryRequiresNumeric))
          | .bang =>
              if !ctypeGoEq rightType (.prim .boolType) then
                (invalidType, c.report .unaryRequiresBool)
              else (rightType, c))
  | .binary op left right =>
      let lr := inferExpression c left
      let rr := inferExpression lr.2 right
      (match checkTypesCompatibility lr.1 rr.1 op with
        | .error e => (invalidType, rr.2.report e)
        | .ok t => (t, rr.2))
  | .ifExpr cond thenB elseB =>
      let cr := inferExpression c cond
      let c := cr.2
      if !ctypeGoEq cr.1 (.prim .boolType) then
        (invalidType, c.report .ifConditionNotBool)
      else
        -- inferIfBlockStatement(e.ThenBlock), inlined
        let c0 := { c with env := envOpenScope c.env }
        let c0 := populateSymbolDeclarations c0 thenB
        let tr := inferIfBlockLoop c0 (.prim .voidType) thenB
        let thenType := tr.1
        let c := { tr.2 with env := envCloseScope tr.2.env }
        match inferElseBlockType c elseB with
        | none => (thenType, c)
        | some er =>
            if !IsCompatibleType thenType er.1 then
              (invalidType, er.2.report .ifBranchesIncompatible)
            else (getMaxTypeOf thenType er.1, er.2)

/-- The `ElseBlock` switch of the if-expression case: `none` for a nil
else branch (the then type is returned unchanged), otherwise the inferred
else type. -/
def inferElseBlockType (c : CheckerState) :
    ElseBranch → Option (ChlangType × CheckerState)
  | .noneB => none
  | .blockB ss =>
      -- inferIfBlockStatement(elseBlock), inlined
      let c0 := { c with env := envOpenScope c.env }
      let c0 := populateSymbolDeclarations c0 ss
      let r := inferIfBlockLoop c0 (.prim .voidType) ss
      some (r.1, { r.2 with env := envCloseScope r.2.env })
  | .ifB e => some (inferExpression c e)

/-- The non-spread argument loop of the call case (diagnostics accumulate,
the loop never exits early). -/
def checkCallArgs (c : CheckerState) (fname : String) :
    List ChlangType → List Expr → CheckerState
  | _, [] => c
  | [], _ :: _ => c
  | p :: ps, a :: rest =>
      let r := inferExpression c a
      let c :=
        if !IsLeftCompatibleType p r.1 then r.2.report (.argTypeMismatch fname)
        else r.2
      checkCallArgs c fname ps rest

/-- The spread argument loop: an invalid argument type returns invalid
immediately (the spread warning is stdout only, not a diagnostic). -/
def inferSpreadArgs (c : CheckerState) : List Expr → Bool × CheckerState
  | [] => (true, c)
  | a :: rest =>
      let r := inferExpression c a
      if ctypeGoEq r.1 invalidType then (false, r.2)
      else inferSpreadArgs r.2 rest

/-- The statement loop of `inferIfBlockStatement`: expression statements
update the block's value type, other statements are visited. -/
def inferIfBlockLoop (c : CheckerState) (acc : ChlangType) :
    List Stmt → ChlangType × CheckerState
  | [] => (acc, c)
  | .exprStmt e :: rest =>
      let r := inferExpression c e
      inferIfBlockLoop r.2 r.1 rest
  | s :: rest => inferIfBlockLoop (visitStatement c s) acc rest

/-- `visitStatement` (part_007 lines 73-131). -/
def visitStatement (c : CheckerState) : Stmt → CheckerState
  | .constDecl name typeAnn value =>
      -- visitConstDeclaration, inlined (see the standalone definition)
      if (envLookupType c.env name).isSome then c.report (.constUsesTypeName name)
      else if (envLookupSymbolLocal c.env name).isSome then
        c.report (.alreadyDeclared name)
      else
        let r := inferExpression c value
        let c := r.2
        (match r.1 with
          | .prim constValueType =>
              (match typeAnn with
                | some tname =>
                    let tr := resolveASTType c tname
                    if !IsLeftCompatibleType tr.1 (.prim constValueType) then
                      tr.2.report (.constTypeMismatch name)
                    else
                      { tr.2 with env := (envInsertSymbol tr.2.env
                          { Name := name, Used := false,
                            Ty := .prim constValueType,
                            EntityType := .constantEntity,
                            FunctionArgs := [] }).2 }
                | none =>
                    { c with env := (envInsertSymbol c.env
                        { Name := name, Used := false,
                          Ty := .prim constValueType,
                          EntityType := .constantEntity,
                          FunctionArgs := [] }).2 })
          | _ => c.report (.constNotPrimitive name))
  | .varDecl name typeAnn none =>
      -- visitVarDeclaration, inlined (see the standalone definition)
      if (envLookupSymbolLocal c.env name).isSome then
        c.report (.alreadyDeclared name)
      else
        (match typeAnn with
          | none => c.report (.varNeedsTypeOrValue name)
          | some tname =>
              let tr := resolveASTType c tname
              visitVarDeclFinish tr.2 name tr.1)
  | .varDecl name typeAnn (some value) =>
      if (envLookupSymbolLocal c.env name).isSome then
        c.report (.alreadyDeclared name)
      else
        let vr := inferExpression c value
        let c := vr.2
        (match typeAnn with
          | none => visitVarDeclFinish c name (getGeneralTypeOf vr.1)
          | some tname =>
              let tr := resolveASTType c tname
              if !IsLeftCompatibleType tr.1 vr.1 then
                -- type mismatch: report and RETURN — the symbol is not
                -- inserted
                tr.2.report (.varTypeMismatch name)
              else visitVarDeclFinish tr.2 name tr.1)
  | .funcDecl name _ _ body =>
      -- visitFuncBody, inlined (see the standalone definition)
      (match envLookupSymbolLocal c.env name with
        | none => c -- Go panic: unreachable once the signature pass has run
        | some funcSymbol =>
            let c := { c with env := envOpenScope c.env }
            let c := populateSymbolDeclarations c body
            let prevFuncPtr := c.function
            let c := { c with function := some funcSymbol }
            let c := funcSymbol.FunctionArgs.foldl
              (fun c a =>
                { c with env := (envInsertSymbol c.env
                    { Name := a.1, Used := false, Ty := a.2,
                      EntityType := .variableEntity, FunctionArgs := [] }).2 }) c
            -- `c.visitStatement(stmt.Body)`: the block case — open a
            -- scope, re-populate, visit, close
            let c := { c with env := envOpenScope c.env }
            let c := populateSymbolDeclarations c body
            let c := visitStatements c body
            let c := { c with env := envCloseScope c.env }
            let c := { c with env := envCloseScope c.env }
            { c with function := prevFuncPtr })
  | .exprStmt e => (inferExpression c e).2
  | .forRange varName _ _ _ body =>
      -- the range endpoints are not visited here: only the scope, the
      -- loop variable (an i32), and the body statements
      let c := { c with env := envOpenScope c.env }
      let rangeVar : EnvSymbolEntity :=
        { Name := varName, Used := false, Ty := .prim .int32,
          EntityType := .variableEntity, FunctionArgs := [] }
      let c := { c with env := (envInsertSymbol c.env rangeVar).2 }
      let c := visitStatements c body
      { c with env := envCloseScope c.env }
  | .block stmts =>
      let c := { c with env := envOpenScope c.env }
      let c := populateSymbolDeclarations c stmts
      let c := visitStatements c stmts
      { c with env := envCloseScope c.env }
  | .returnStmt none =>
      -- inferExpression(nil) yields void
      returnStmtCheck c (.prim .voidType)
  | .returnStmt (some e) =>
      let r := inferExpression c e
      returnStmtCheck r.2 r.1
  | .breakStmt => c
  | .continueStmt => c

def visitStatements (c : CheckerState) : List Stmt → CheckerState
  | [] => c
  | s :: rest => visitStatements (visitStatement c s) rest

end

/-- `inferIfBlockStatement` as a standalone definition. -/
def inferIfBlockStatement (c : CheckerState) (stmts : List Stmt) :
    ChlangType × CheckerState :=
  let c0 := { c with env := envOpenScope c.env }
  let c0 := populateSymbolDeclarations c0 stmts
  let r := inferIfBlockLoop c0 (.prim .voidType) stmts
  (r.1, { r.2 with env := envCloseScope r.2.env })

/-- `inferExpression` applied to a possibly-nil expression: nil yields
void. -/
def inferExpressionOpt (c : CheckerState) :
    Option Expr → ChlangType × CheckerState
  | none => (.prim .voidType, c)
  | some e => inferExpression c e

/-- `visitConstDeclaration` (part_007 lines 324-380) as a standalone
definition, definitionally equal to the `constDecl` case of
`visitStatement`. -/
def visitConstDeclaration (c : CheckerState) (name : String)
    (typeAnn : Option String) (value : Expr) : CheckerState :=
  visitStatement c (.constDecl name typeAnn value)

/-- `visitVarDeclaration` (part_007 lines 382-433) as a standalone
definition, definitionally equal to the `varDecl` cases of
`visitStatement`. -/
def visitVarDeclaration (c : CheckerState) (name : String)
    (typeAnn : Option String) (valueOpt : Option Expr) : CheckerState :=
  visitStatement c (.varDecl name typeAnn valueOpt)

/-- `visitFuncBody` (part_007 lines 529-554) as a standalone definition,
definitionally equal to the `funcDecl` case of `visitStatement` (the
parameter list and return annotation are not read by the body pass). -/
def visitFuncBody (c : CheckerState) (name : String) (body : List Stmt) :
    CheckerState :=
  visitStatement c (.funcDecl name [] none body)

/-- `checker.Check`: builtins, signature hoisting, then a visit of every
top-level statement. -/
def checkProgram (prog : List Stmt) : CheckerState :=
  let c : CheckerState := { env := newEnv, errors := [], function := none }
  let c := addBuiltinFunctions c
  let c := populateSymbolDeclarations c prog
  visitStatements c prog

/-! ## Concrete programs and states exercising the claims -/

/-- Iterate the dispatch loop `n` times; `.ok none` = the loop exited
within the budget. -/
def stepN : Nat → VM → Except VMError (Option VM)
  | 0, vm => .ok (some vm)
  | n + 1, vm =>
      match step vm with
      | .error e => .error e
      | .ok none => .ok none
      | .ok (some vm') => stepN n vm'

/-- A callee for exercising `callFunc` in isolation. -/
def c1Callee : FunctionObject :=
  { name := "f", instructions := [], locals := [], constants := [],
    scopeDepth := 0 }

/-- A reachable-shaped VM whose current frame sits near the top of a
maximally grown stack: `stackCapacity = maxStackSize`, so the overflow
gate `stackCapacity > maxStackSize` does not fire although the new
frame's `top` exceeds `maxStackSize`. -/
def c1VM : VM :=
  { ip := 0
    stack := ⟨65535, fun _ => ⟨.functionObject, .funcPtr 0⟩⟩
    stackCapacity := 65535
    frames := [{ function := c1Callee, base := 65400, top := 65535,
                 returnAddress := 0, args := 0, results := 0, usedSize := 0 }]
    funcs := [c1Callee]
    output := [] }

/-- A small VM for showing ordinary in-bound stack growth. -/
def c1SmallVM : VM :=
  { ip := 0
    stack := ⟨255, fun _ => ⟨.functionObject, .funcPtr 0⟩⟩
    stackCapacity := 255
    frames := [{ function := c1Callee, base := 0, top := 255,
                 returnAddress := 0, args := 0, results := 0, usedSize := 0 }]
    funcs := [c1Callee]
    output := [] }

/-- `fn isEven(n: i32) -> bool { if n == 0 { true } else { isOdd(n - 1) } }
fn isOdd(n: i32) -> bool { if n == 0 { false } else { isEven(n - 1) } }
println(isEven(7))`. -/
def c5prog : List Stmt :=
  [ .funcDecl "isEven" [("n", "i32")] (some "bool")
      [.exprStmt (.ifExpr (.binary .equals (.ident "n") (.intLit 0))
          [.exprStmt (.boolLit true)]
          (.blockB [.exprStmt
            (.call "isOdd" false [(.binary .minus (.ident "n") (.intLit 1))])]))],
    .funcDecl "isOdd" [("n", "i32")] (some "bool")
      [.exprStmt (.ifExpr (.binary .equals (.ident "n") (.intLit 0))
          [.exprStmt (.boolLit false)]
          (.blockB [.exprStmt
            (.call "isEven" false [(.binary .minus (.ident "n") (.intLit 1))])]))],
    .exprStmt (.call "println" true [(.call "isEven" false [(.intLit 7)])]) ]

/-- `for i in a..b {}` respectively `for i in a..=b {}` as a program. -/
def c6src (a b : Int) (incl : Bool) : List Stmt :=
  [.forRange "i" (.intLit a) (.intLit b) incl []]

/-- The module the generator emits for `c6src a b incl` (when `a`, `b`, `1`
are pairwise distinct values, so that the constant-pool dedup keeps them at
indices 1, 2, 3; the shape is verified against `generate` below). -/
def c6module (a b : Int) (incl : Bool) : FunctionObject :=
  { name := "<module>"
    instructions :=
      [ ⟨.LoadConst, [.reg 1, .cidx 1]⟩,
        ⟨.Move, [.reg 0, .reg 1]⟩,
        ⟨.LoadConst, [.reg 1, .cidx 2]⟩,
        ⟨if incl then .Lte else .Lt, [.reg 2, .reg 0, .reg 1]⟩,
        ⟨.JumpIf, [.reg 2, .bool false, .int 8]⟩,
        ⟨.LoadConst, [.reg 2, .cidx 3]⟩,
        ⟨.Add, [.reg 0, .reg 0, .reg 2]⟩,
        ⟨.Jump, [.int 3]⟩ ]
    locals := []
    constants :=
      [ ⟨"println", ⟨.buildInFunction, .str "println"⟩⟩,
        ⟨"const#1", ⟨.int64, .i64 a⟩⟩,
        ⟨"const#2", ⟨.int64, .i64 b⟩⟩,
        ⟨"const#3", ⟨.int64, .i64 1⟩⟩ ]
    scopeDepth := 0 }

/-- Body executions of the emitted loop: the body region starts at
instruction address 5 (right after the conditional exit branch), so the
number of dispatch states at `ip = 5` is the number of iterations. -/
def c6bodyIp : Nat := 5

def c6expectedIterations (a b : Int) (incl : Bool) : Nat :=
  ((if incl then b + 1 else b) - a).toNat

/-- Iterations remaining when the loop variable holds `v`. -/
def c6remaining (b : Int) (incl : Bool) (v : Int) : Nat :=
  ((if incl then b + 1 else b) - v).toNat

def c6vm (a b : Int) (incl : Bool) : VM := NewVM (c6module a b incl) []

def maxI64 : Int := 9223372036854775807

/-- The loop-head invariant of the emitted for-range loop: about to
execute the comparison at address 3, loop variable in stack slot 0, range
end in slot 1. -/
def C6Inv (a b : Int) (incl : Bool) (v : Int) (vm : VM) : Prop :=
  vm.ip = 3 ∧
  vm.stack.size = 255 ∧
  vm.stackCapacity = 255 ∧
  vm.stack.data 0 = ⟨.int64, .i64 v⟩ ∧
  vm.stack.data 1 = ⟨.int64, .i64 b⟩ ∧
  (∃ us, vm.frames = [⟨c6module a b incl, 0, 255, 0, 0, 0, us⟩]) ∧
  InI64 v

/-- A function whose body is `return(1, 0)`: returns no values. -/
def c7fn0 : FunctionObject :=
  { name := "g", instructions := [⟨.Return, [.reg 1, .int 0]⟩],
    locals := [], constants := [], scopeDepth := 0 }

/-- A function whose body is `return(1, 1)`: returns the value in its
register 1. -/
def c7fn1 : FunctionObject :=
  { name := "g", instructions := [⟨.Return, [.reg 1, .int 1]⟩],
    locals := [], constants := [], scopeDepth := 0 }

/-- A VM inside `c7fn0`, as after `call(2, 0, 1)` from a caller at base 0:
the callee slot (absolute index 2 = base − 1) still holds the function
value that was loaded to make the call. -/
def c7VM0 : VM :=
  { ip := 0
    stack := ⟨16, fun j =>
      if j = 2 then ⟨.functionObject, .funcPtr 0⟩
      else if j = 3 then ⟨.bool, .bool true⟩
      else if j = 4 then ⟨.int64, .i64 42⟩
      else undefinedValue⟩
    stackCapacity := 258
    frames :=
      [ { function := c7fn0, base := 3, top := 258, returnAddress := 7,
          args := 0, results := 1, usedSize := 0 },
        { function := c7fn0, base := 0, top := 255, returnAddress := 0,
          args := 0, results := 0, usedSize := 3 } ]
    funcs := [c7fn0]
    output := [] }

/-- The same state but executing `c7fn1` (`return(1, 1)`). -/
def c7VM1 : VM :=
  { c7VM0 with frames :=
      [ { function := c7fn1, base := 3, top := 258, returnAddress := 7,
          args := 0, results := 1, usedSize := 0 },
        { function := c7fn1, base := 0, top := 255, returnAddress := 0,
          args := 0, results := 0, usedSize := 3 } ] }

/-- `let a: bool = 1` followed by a use of `a`. -/
def c8prog1 : List Stmt :=
  [.varDecl "a" (some "bool") (some (.intLit 1)), .exprStmt (.ident "a")]

/-- `let b: sometype` (unresolved annotation, no initializer). -/
def c8prog2 : List Stmt :=
  [.varDecl "b" (some "sometype") none, .exprStmt (.ident "b")]

/-- `const k: bool = 1` followed by a use of `k`. -/
def c8prog3 : List Stmt :=
  [.constDecl "k" (some "bool") (.intLit 1), .exprStmt (.ident "k")]

/-- A for-range whose endpoints are booleans. -/
def c9prog : List Stmt :=
  [.forRange "i" (.boolLit true) (.boolLit false) false []]

/-- `const A = 7` then `let x = A`. -/
def c10prog : List Stmt :=
  [.constDecl "A" none (.intLit 7),
   .varDecl "x" none (some (.ident "A"))]

/-- What `generate` emits for `c10prog`: the `LoadConst` second operand is
the identifier's NAME (a Go string), not a `ConstantValueIdx`. -/
def c10module : FunctionObject :=
  { name := "<module>"
    instructions := [⟨.LoadConst, [.reg 0, .str "A"]⟩]
    locals := [{ name := "x", address := 0, depth := 0, temp := false }]
    constants :=
      [ ⟨"println", ⟨.buildInFunction, .str "println"⟩⟩,
        ⟨"A", ⟨.int64, .i64 7⟩⟩ ]
    scopeDepth := 0 }

/-- The state `callFunc` produces from `c1VM`: the stack has grown PAST
`maxStackSize` because the overflow check read the old capacity. -/
def c1Grown : VM :=
  { ip := 0
    stack := ⟨65656, fun j => if j < 65535 then c1VM.stack.data j
                              else undefinedValue⟩
    stackCapacity := 65656
    frames := [⟨c1Callee, 65401, 65656, 0, 0, 1, 0⟩,
               ⟨c1Callee, 65400, 65535, 0, 0, 0, 0⟩]
    funcs := [c1Callee]
    output := [] }

/-- The state `callFunc` produces from `c1SmallVM` (ordinary growth). -/
def c1SmallGrown : VM :=
  { ip := 0
    stack := ⟨256, fun j => if j < 255 then c1SmallVM.stack.data j
                            else undefinedValue⟩
    stackCapacity := 256
    frames := [⟨c1Callee, 1, 256, 0, 0, 1, 0⟩,
               ⟨c1Callee, 0, 255, 0, 0, 0, 0⟩]
    funcs := [c1Callee]
    output := [] }

/-- The state after `return(1, 0)` from `c7VM0`: frame popped, return
address restored, stack untouched. -/
def c7final0 : VM :=
  { c7VM0 with ip := 7, frames := [⟨c7fn0, 0, 255, 0, 0, 0, 3⟩] }

/-- The state after the single copy of `return(1, 1)` from `c7VM1`
(before the frame pop): slot 2 (= callee slot) now holds the returned
value. -/
def c7written : VM :=
  { c7VM1 with
    ip := 1,
    stack := ⟨16, fun j => if j = 2 then ⟨.int64, .i64 42⟩
                           else c7VM0.stack.data j⟩,
    frames := [⟨c7fn1, 3, 258, 7, 0, 1, 3⟩, ⟨c7fn1, 0, 255, 0, 0, 0, 3⟩] }

/-- The state after `return(1, 1)` from `c7VM1`: copy done, frame
popped. -/
def c7final1 : VM :=
  { c7written with ip := 7, frames := [⟨c7fn1, 0, 255, 0, 0, 0, 3⟩] }

/-! ## Helper lemmas -/

theorem exceptBind_ok {e a b : Type} (x : a) (f : a → Except e b) :
    (Except.ok x : Except e a) >>= f = f x := rfl

theorem exceptBind_error {e a b : Type} (err : e) (f : a → Except e b) :
    (Except.error err : Except e a) >>= f = .error err := rfl

theorem exceptPure_eq {e a : Type} (x : a) :
    (pure x : Except e a) = .ok x := rfl

theorem exceptBindF_ok {e a b : Type} (x : a) (f : a → Except e b) :
    Except.bind (Except.ok x) f = f x := rfl

theorem exceptBindF_error {e a b : Type} (err : e) (f : a → Except e b) :
    Except.bind (Except.error err) f = .error err := rfl

theorem returnCopyLoop_zero (r fi : Int) (i : Nat) (vm : VM) :
    returnCopyLoop r fi 0 i vm = .ok vm := rfl

theorem returnCopyLoop_succ (r fi : Int) (n i : Nat) (vm : VM) :
    returnCopyLoop r fi (n + 1) i vm =
      Except.bind (vm.stack.read (fi + (i : Int))) (fun slot =>
        Except.bind (vm.setStackValue (r + (i : Int)) slot) (fun vm' =>
          returnCopyLoop r fi n (i + 1) vm')) := rfl

theorem natToString0 : toString (0 : Nat) = "0" := rfl
theorem natToString1 : toString (1 : Nat) = "1" := rfl
theorem natToString2 : toString (2 : Nat) = "2" := rfl
theorem natToString3 : toString (3 : Nat) = "3" := rfl
theorem natToString4 : toString (4 : Nat) = "4" := rfl
theorem natToString5 : toString (5 : Nat) = "5" := rfl
theorem natToString6 : toString (6 : Nat) = "6" := rfl
theorem natToString7 : toString (7 : Nat) = "7" := rfl
theorem natToString8 : toString (8 : Nat) = "8" := rfl
theorem natToString9 : toString (9 : Nat) = "9" := rfl

theorem wrap64_in_range {x : Int} (h : InI64 x) : wrap64 x = x := by
  obtain ⟨h1, h2⟩ := h
  unfold i64HalfModulus at h1 h2
  show (if x % i64Modulus < i64HalfModulus then x % i64Modulus
        else x % i64Modulus - i64Modulus) = x
  unfold i64Modulus i64HalfModulus
  split <;> omega

theorem runCount_cons_false (p : VM → Bool) (n : Nat) (vm w : VM)
    (h : step vm = .ok (some w)) (hp : p vm = false) :
    runCount p (n + 1) vm = runCount p n w := by
  simp only [runCount, h, hp, Bool.false_eq_true, if_false, Nat.add_zero]
  rcases hr : runCount p n w with e | r <;> rfl

theorem runCount_cons_true (p : VM → Bool) (n : Nat) (vm w : VM)
    (h : step vm = .ok (some w)) (hp : p vm = true) :
    runCount p (n + 1) vm = (runCount p n w).map fun r => (r.1, r.2 + 1) := by
  simp only [runCount, h, hp, if_true]

theorem runCount_exit (p : VM → Bool) (n : Nat) (vm : VM)
    (h : step vm = .ok none) :
    runCount p (n + 1) vm = .ok (vm, 0) := by
  simp only [runCount, h]

theorem c6_step_cmp (a b v cap : Int) (incl : Bool) (d : Nat → OperandValue)
    (us : Nat) (fn : List FunctionObject) (out : List (List OperandValue))
    (hd0 : d 0 = ⟨.int64, .i64 v⟩) (hd1 : d 1 = ⟨.int64, .i64 b⟩) :
    step ⟨3, ⟨255, d⟩, cap, [⟨c6module a b incl, 0, 255, 0, 0, 0, us⟩], fn, out⟩ =
      .ok (some ⟨4, ⟨255, fun j => if j = 2 then
            ⟨.bool, .bool (if incl then decide (v ≤ b) else decide (v < b))⟩
          else d j⟩, cap,
        [⟨c6module a b incl, 0, 255, 0, 0, 0, max us 3⟩], fn, out⟩) := by
  cases incl <;>
    simp only [step, c6module, List.get?, VM.performBinaryOperation,
      Stack.read, VM.setStackValue, binaryOpValue, Opcode.IsComparison,
      goCompareInt, regOp, intOp, opAt, GoOperand.asReg, GoOperand.asInt,
      exceptBindF_ok, exceptBind_ok, hd0, hd1,
      Nat.cast_ofNat, Int.reduceAdd, Int.reduceLE, Int.reduceLT,
      Int.reduceToNat, Nat.reduceAdd, Bool.false_eq_true, Bool.true_eq_false,
      if_true, if_false, ite_true, ite_false, and_self, and_true, true_and,
      eq_self_iff_true, ne_eq, not_false_eq_true, not_true_eq_false,
      reduceIte, decide_eq_true_eq, reduceCtorEq, decide_False, decide_True,
      Bool.or_true, Bool.true_or, Bool.or_false, Bool.false_or, Bool.or_self]




theorem toUInt32Nat_lit3 : toUInt32Nat 3 = 3 := rfl
theorem toUInt32Nat_lit8 : toUInt32Nat 8 = 8 := rfl

theorem c6_step_jumpif_true (a b cap : Int) (incl : Bool)
    (d : Nat → OperandValue) (us : Nat) (fn : List FunctionObject)
    (out : List (List OperandValue)) (hd2 : d 2 = ⟨.bool, .bool true⟩) :
    step ⟨4, ⟨255, d⟩, cap, [⟨c6module a b incl, 0, 255, 0, 0, 0, us⟩], fn, out⟩ =
      .ok (some ⟨5, ⟨255, d⟩, cap,
        [⟨c6module a b incl, 0, 255, 0, 0, 0, us⟩], fn, out⟩) := by
  simp only [step, c6module, List.get?, Stack.read, regOp, intOp, boolOp,
    opAt, GoOperand.asReg, GoOperand.asInt, GoOperand.asBool,
    exceptBindF_ok, exceptBind_ok, hd2, toUInt32Nat_lit8,
    GoAny.bool.injEq, Bool.true_eq_false, Bool.false_eq_true,
    Nat.cast_ofNat, Int.reduceAdd, Int.reduceLE, Int.reduceLT,
    Int.reduceToNat, Nat.reduceAdd, if_true, if_false, ite_true, ite_false,
    and_self, and_true, true_and, eq_self_iff_true, ne_eq,
    not_false_eq_true, not_true_eq_false, reduceIte, reduceCtorEq,
    decide_False, decide_True]

theorem c6_step_jumpif_false (a b cap : Int) (incl : Bool)
    (d : Nat → OperandValue) (us : Nat) (fn : List FunctionObject)
    (out : List (List OperandValue)) (hd2 : d 2 = ⟨.bool, .bool false⟩) :
    step ⟨4, ⟨255, d⟩, cap, [⟨c6module a b incl, 0, 255, 0, 0, 0, us⟩], fn, out⟩ =
      .ok (some ⟨8, ⟨255, d⟩, cap,
        [⟨c6module a b incl, 0, 255, 0, 0, 0, us⟩], fn, out⟩) := by
  simp only [step, c6module, List.get?, Stack.read, regOp, intOp, boolOp,
    opAt, GoOperand.asReg, GoOperand.asInt, GoOperand.asBool,
    exceptBindF_ok, exceptBind_ok, hd2, toUInt32Nat_lit8,
    GoAny.bool.injEq, Bool.true_eq_false, Bool.false_eq_true,
    Nat.cast_ofNat, Int.reduceAdd, Int.reduceLE, Int.reduceLT,
    Int.reduceToNat, Nat.reduceAdd, if_true, if_false, ite_true, ite_false,
    and_self, and_true, true_and, eq_self_iff_true, ne_eq,
    not_false_eq_true, not_true_eq_false, reduceIte, reduceCtorEq,
    decide_False, decide_True]

theorem c6_step_loadone (a b cap : Int) (incl : Bool) (d : Nat → OperandValue)
    (us : Nat) (fn : List FunctionObject) (out : List (List OperandValue)) :
    step ⟨5, ⟨255, d⟩, cap, [⟨c6module a b incl, 0, 255, 0, 0, 0, us⟩], fn, out⟩ =
      .ok (some ⟨6, ⟨255, fun j => if j = 2 then ⟨.int64, .i64 1⟩ else d j⟩,
        cap, [⟨c6module a b incl, 0, 255, 0, 0, 0, max us 3⟩], fn, out⟩) := by
  simp only [step, c6module, List.get?, Stack.read, VM.setStackValue,
    regOp, cidxOp, opAt, GoOperand.asReg, GoOperand.asCidx,
    exceptBindF_ok, exceptBind_ok,
    Nat.cast_ofNat, Int.reduceAdd, Int.reduceLE, Int.reduceLT,
    Int.reduceToNat, Nat.reduceAdd, if_true, if_false, ite_true, ite_false,
    and_self, and_true, true_and, eq_self_iff_true, ne_eq,
    not_false_eq_true, not_true_eq_false, reduceIte, reduceCtorEq]

theorem c6_step_add (a b v cap : Int) (incl : Bool) (d : Nat → OperandValue)
    (us : Nat) (fn : List FunctionObject) (out : List (List OperandValue))
    (hd0 : d 0 = ⟨.int64, .i64 v⟩) (hd2 : d 2 = ⟨.int64, .i64 1⟩) :
    step ⟨6, ⟨255, d⟩, cap, [⟨c6module a b incl, 0, 255, 0, 0, 0, us⟩], fn, out⟩ =
      .ok (some ⟨7, ⟨255, fun j => if j = 0 then
            ⟨.int64, .i64 (wrap64 (v + 1))⟩ else d j⟩,
        cap, [⟨c6module a b incl, 0, 255, 0, 0, 0, max us 1⟩], fn, out⟩) := by
  simp only [step, c6module, List.get?, VM.performBinaryOperation,
    Stack.read, VM.setStackValue, binaryOpValue, Opcode.IsComparison,
    OperandValueType.IsNumeric, goIntArith, regOp, opAt, GoOperand.asReg,
    exceptBindF_ok, exceptBind_ok, hd0, hd2, Except.map,
    Nat.cast_ofNat, Int.reduceAdd, Int.reduceLE, Int.reduceLT,
    Int.reduceToNat, Nat.reduceAdd, Bool.false_eq_true, Bool.true_eq_false,
    if_true, if_false, ite_true, ite_false, and_self, and_true, true_and,
    eq_self_iff_true, ne_eq, not_false_eq_true, not_true_eq_false,
    reduceIte, reduceCtorEq, decide_False, decide_True,
    Bool.or_true, Bool.true_or, Bool.or_false, Bool.false_or, Bool.or_self]

theorem c6_step_jump (a b cap : Int) (incl : Bool) (d : Nat → OperandValue)
    (us : Nat) (fn : List FunctionObject) (out : List (List OperandValue)) :
    step ⟨7, ⟨255, d⟩, cap, [⟨c6module a b incl, 0, 255, 0, 0, 0, us⟩], fn, out⟩ =
      .ok (some ⟨3, ⟨255, d⟩, cap,
        [⟨c6module a b incl, 0, 255, 0, 0, 0, us⟩], fn, out⟩) := by
  simp only [step, c6module, List.get?, intOp, opAt, GoOperand.asInt,
    exceptBindF_ok, exceptBind_ok, toUInt32Nat_lit3]

theorem c6_step_end (a b cap : Int) (incl : Bool) (d : Nat → OperandValue)
    (us : Nat) (fn : List FunctionObject) (out : List (List OperandValue)) :
    step ⟨8, ⟨255, d⟩, cap, [⟨c6module a b incl, 0, 255, 0, 0, 0, us⟩], fn, out⟩ =
      .ok none := by
  simp only [step, c6module, List.get?]




theorem c6_iterate (a b v cap : Int) (incl : Bool) (d : Nat → OperandValue)
    (us : Nat) (fn : List FunctionObject) (out : List (List OperandValue))
    (fuel : Nat)
    (hd0 : d 0 = ⟨.int64, .i64 v⟩) (hd1 : d 1 = ⟨.int64, .i64 b⟩)
    (hc : (if incl then decide (v ≤ b) else decide (v < b)) = true)
    (hv1 : InI64 (v + 1)) :
    ∃ d' us', runCount (fun s => s.ip == c6bodyIp) (fuel + 5)
        ⟨3, ⟨255, d⟩, cap, [⟨c6module a b incl, 0, 255, 0, 0, 0, us⟩], fn, out⟩ =
      (runCount (fun s => s.ip == c6bodyIp) fuel
        ⟨3, ⟨255, d'⟩, cap,
          [⟨c6module a b incl, 0, 255, 0, 0, 0, us'⟩], fn, out⟩).map
        (fun r => (r.1, r.2 + 1)) ∧
      d' 0 = ⟨.int64, .i64 (v + 1)⟩ ∧ d' 1 = ⟨.int64, .i64 b⟩ := by
  have h1 := runCount_cons_false (fun s => s.ip == c6bodyIp) (fuel + 4) _ _
    (c6_step_cmp a b v cap incl d us fn out hd0 hd1) rfl
  have h2 := runCount_cons_false (fun s => s.ip == c6bodyIp) (fuel + 3) _ _
    (c6_step_jumpif_true a b cap incl
      (fun j => if j = 2 then
          ⟨.bool, .bool (if incl then decide (v ≤ b) else decide (v < b))⟩
        else d j)
      (max us 3) fn out
      (by simp only [reduceIte, Nat.reduceEqDiff, if_true, if_false,
        ite_true, ite_false, hc])) rfl
  have h3 := runCount_cons_true (fun s => s.ip == c6bodyIp) (fuel + 2) _ _
    (c6_step_loadone a b cap incl
      (fun j => if j = 2 then
          ⟨.bool, .bool (if incl then decide (v ≤ b) else decide (v < b))⟩
        else d j)
      (max us 3) fn out) rfl
  have h4 := runCount_cons_false (fun s => s.ip == c6bodyIp) (fuel + 1) _ _
    (c6_step_add a b v cap incl
      (fun j => if j = 2 then ⟨.int64, .i64 1⟩ else
        (fun j => if j = 2 then
            ⟨.bool, .bool (if incl then decide (v ≤ b) else decide (v < b))⟩
          else d j) j)
      (max (max us 3) 3) fn out
      (by simp only [reduceIte, Nat.reduceEqDiff, if_true, if_false,
        ite_true, ite_false, hd0])
      (by simp only [reduceIte, Nat.reduceEqDiff, if_true, if_false,
        ite_true, ite_false])) rfl
  have h5 := runCount_cons_false (fun s => s.ip == c6bodyIp) fuel _ _
    (c6_step_jump a b cap incl
      (fun j => if j = 0 then ⟨.int64, .i64 (wrap64 (v + 1))⟩ else
        (fun j => if j = 2 then ⟨.int64, .i64 1⟩ else
          (fun j => if j = 2 then
              ⟨.bool, .bool (if incl then decide (v ≤ b) else decide (v < b))⟩
            else d j) j) j)
      (max (max (max us 3) 3) 1) fn out) rfl
  refine ⟨(fun j => if j = 0 then ⟨.int64, .i64 (wrap64 (v + 1))⟩ else
      (fun j => if j = 2 then ⟨.int64, .i64 1⟩ else
        (fun j => if j = 2 then
            ⟨.bool, .bool (if incl then decide (v ≤ b) else decide (v < b))⟩
          else d j) j) j),
    max (max (max us 3) 3) 1, ?_, ?_, ?_⟩
  · rw [h1, h2, h3, h4, h5]
  · simp only [reduceIte, Nat.reduceEqDiff, if_true, if_false, ite_true,
      ite_false, wrap64_in_range hv1]
  · simp only [reduceIte, Nat.reduceEqDiff, if_true, if_false, ite_true,
      ite_false, hd1]
theorem c6_exit (a b v cap : Int) (incl : Bool) (d : Nat → OperandValue)
    (us : Nat) (fn : List FunctionObject) (out : List (List OperandValue))
    (hd0 : d 0 = ⟨.int64, .i64 v⟩) (hd1 : d 1 = ⟨.int64, .i64 b⟩)
    (hc : (if incl then decide (v ≤ b) else decide (v < b)) = false) :
    ∃ vmEnd, runCount (fun s => s.ip == c6bodyIp) 3
        ⟨3, ⟨255, d⟩, cap, [⟨c6module a b incl, 0, 255, 0, 0, 0, us⟩], fn, out⟩ =
      .ok (vmEnd, 0) := by
  have h1 := runCount_cons_false (fun s => s.ip == c6bodyIp) 2 _ _
    (c6_step_cmp a b v cap incl d us fn out hd0 hd1) rfl
  have h2 := runCount_cons_false (fun s => s.ip == c6bodyIp) 1 _ _
    (c6_step_jumpif_false a b cap incl
      (fun j => if j = 2 then
          ⟨.bool, .bool (if incl then decide (v ≤ b) else decide (v < b))⟩
        else d j)
      (max us 3) fn out
      (by simp only [reduceIte, Nat.reduceEqDiff, if_true, if_false,
        ite_true, ite_false, hc])) rfl
  have h3 := runCount_exit (fun s => s.ip == c6bodyIp) 0 _
    (c6_step_end a b cap incl
      (fun j => if j = 2 then
          ⟨.bool, .bool (if incl then decide (v ≤ b) else decide (v < b))⟩
        else d j)
      (max us 3) fn out)
  refine ⟨⟨8, ⟨255, fun j => if j = 2 then
      ⟨.bool, .bool (if incl then decide (v ≤ b) else decide (v < b))⟩
    else d j⟩, cap, [⟨c6module a b incl, 0, 255, 0, 0, 0, max us 3⟩],
    fn, out⟩, ?_⟩
  rw [h1, h2, h3]

theorem c6_loop (a b cap : Int) (incl : Bool) (fn : List FunctionObject)
    (out : List (List OperandValue)) :
    ∀ (k : Nat) (v : Int) (d : Nat → OperandValue) (us : Nat),
    d 0 = ⟨.int64, .i64 v⟩ → d 1 = ⟨.int64, .i64 b⟩ →
    InI64 v → InI64 b → (incl = true → b ≠ maxI64) →
    c6remaining b incl v = k →
    ∃ vmEnd, runCount (fun s => s.ip == c6bodyIp) (5 * k + 3)
        ⟨3, ⟨255, d⟩, cap, [⟨c6module a b incl, 0, 255, 0, 0, 0, us⟩], fn, out⟩ =
      .ok (vmEnd, k) := by
  intro k
  induction k with
  | zero =>
    intro v d us hd0 hd1 hv hb hw hk
    have hc : (if incl then decide (v ≤ b) else decide (v < b)) = false := by
      unfold c6remaining at hk
      cases incl <;>
        simp only [Bool.false_eq_true, Bool.true_eq_false, if_true,
          if_false, ite_true, ite_false] at hk ⊢ <;>
        · apply decide_eq_false
          omega
    exact c6_exit a b v cap incl d us fn out hd0 hd1 hc
  | succ n ih =>
    intro v d us hd0 hd1 hv hb hw hk
    have hc : (if incl then decide (v ≤ b) else decide (v < b)) = true := by
      unfold c6remaining at hk
      cases incl <;>
        simp only [Bool.false_eq_true, Bool.true_eq_false, if_true,
          if_false, ite_true, ite_false] at hk ⊢ <;>
        · apply decide_eq_true
          omega
    have hv1 : InI64 (v + 1) := by
      unfold c6remaining at hk
      unfold InI64 maxI64 i64HalfModulus at *
      cases incl
      · simp only [Bool.false_eq_true, if_false, ite_false] at hk
        omega
      · simp only [if_true, ite_true] at hk
        have hbm := hw rfl
        omega
    obtain ⟨d', us', heq, hd0', hd1'⟩ :=
      c6_iterate a b v cap incl d us fn out (5 * n + 3) hd0 hd1 hc hv1
    have hrem : c6remaining b incl (v + 1) = n := by
      unfold c6remaining at hk ⊢
      cases incl <;>
        simp only [Bool.false_eq_true, Bool.true_eq_false, if_true,
          if_false, ite_true, ite_false] at hk ⊢ <;> omega
    obtain ⟨vmEnd, hEnd⟩ := ih (v + 1) d' us' hd0' hd1' hv1 hb hw hrem
    refine ⟨vmEnd, ?_⟩
    rw [show 5 * (n + 1) + 3 = (5 * n + 3) + 5 from by ring]
    rw [heq, hEnd]
    rfl

/-! ## C2: division by zero -/

/-- C2 counterexample: a float division by zero is NOT IEEE-silent — the
VM raises the same fatal division-by-zero error as the integer case. -/
theorem C2_float_div_zero_is_error :
    binaryOpValue .Div ⟨.float64, .f64 1⟩ ⟨.float64, .f64 0⟩ =
      .error .divisionByZero := rfl

/-- C2 (amended): `div` and `mod` on integer operands with zero
denominator are fatal; and `div` on float operands with zero denominator
is equally fatal (`performBinaryOperation` checks `y == 0` in the float
branch too), not IEEE-silent. -/
theorem C2_division_by_zero (x : Int) (q : ℚ) :
    binaryOpValue .Div ⟨.int64, .i64 x⟩ ⟨.int64, .i64 0⟩ =
        .error .divisionByZero ∧
    binaryOpValue .Mod ⟨.int64, .i64 x⟩ ⟨.int64, .i64 0⟩ =
        .error .intDivideByZero ∧
    binaryOpValue .Div ⟨.float64, .f64 q⟩ ⟨.float64, .f64 0⟩ =
        .error .divisionByZero := by
  refine ⟨rfl, rfl, ?_⟩
  show (goFloatArith .Div q 0).map (fun r => (⟨.float64, .f64 r⟩ : OperandValue)) =
    .error .divisionByZero
  simp only [goFloatArith, if_pos rfl]
  rfl

/-! ## C3: numeric dispatch of the arithmetic instructions -/

/-- C3 counterexample: `Add` on an i64-tagged first operand and an
f64-tagged second operand does NOT widen to float — the float operand is
truncated to int64 and the result is i64-tagged (1 + trunc(5/2) = 3). -/
theorem C3_int_first_truncates_float :
    binaryOpValue .Add ⟨.int64, .i64 1⟩ ⟨.float64, .f64 (Rat.divInt 5 2)⟩ =
      .ok ⟨.int64, .i64 3⟩ := rfl

/-- C3 (amended): the arithmetic instructions dispatch on the FIRST
operand's payload only (the second operand's kind tag is never read):
an i64 first operand forces integer arithmetic, truncating a float second
operand toward zero; a float first operand forces float arithmetic,
widening an integer second operand. -/
theorem C3_first_operand_dispatch (opcode : Opcode)
    (hop : opcode ∈ ([.Add, .Sub, .Mul, .Div, .Mod, .Pow] : List Opcode))
    (ky : OperandValueType) (x y : Int) (qx qy : ℚ) :
    binaryOpValue opcode ⟨.int64, .i64 x⟩ ⟨ky, .i64 y⟩ =
        (goIntArith opcode x y).map (fun r => ⟨.int64, .i64 r⟩) ∧
    binaryOpValue opcode ⟨.int64, .i64 x⟩ ⟨ky, .f64 qy⟩ =
        (goIntArith opcode x (ratTrunc qy)).map (fun r => ⟨.int64, .i64 r⟩) ∧
    binaryOpValue opcode ⟨.float64, .f64 qx⟩ ⟨ky, .i64 y⟩ =
        (goFloatArith opcode qx (y : ℚ)).map (fun r => ⟨.float64, .f64 r⟩) ∧
    binaryOpValue opcode ⟨.float64, .f64 qx⟩ ⟨ky, .f64 qy⟩ =
        (goFloatArith opcode qx qy).map (fun r => ⟨.float64, .f64 r⟩) := by
  fin_cases hop <;> exact ⟨rfl, rfl, rfl, rfl⟩

theorem C3_first_operand_dispatch_witness :
    .Add ∈ ([.Add, .Sub, .Mul, .Div, .Mod, .Pow] : List Opcode) ∧
    (binaryOpValue .Add ⟨.int64, .i64 1⟩ ⟨.float64, .i64 2⟩ =
        (goIntArith .Add 1 2).map (fun r => ⟨.int64, .i64 r⟩) ∧
    binaryOpValue .Add ⟨.int64, .i64 1⟩ ⟨.float64, .f64 (5 / 2)⟩ =
        (goIntArith .Add 1 (ratTrunc (5 / 2))).map (fun r => ⟨.int64, .i64 r⟩) ∧
    binaryOpValue .Add ⟨.float64, .f64 (1 / 2)⟩ ⟨.float64, .i64 2⟩ =
        (goFloatArith .Add (1 / 2) ((2 : Int) : ℚ)).map
          (fun r => ⟨.float64, .f64 r⟩) ∧
    binaryOpValue .Add ⟨.float64, .f64 (1 / 2)⟩ ⟨.float64, .f64 (5 / 2)⟩ =
        (goFloatArith .Add (1 / 2) (5 / 2)).map (fun r => ⟨.float64, .f64 r⟩)) :=
  ⟨by decide, C3_first_operand_dispatch .Add (by decide) .float64 1 2 (1 / 2) (5 / 2)⟩

/-! ## C9: for-range endpoints and the checker -/

/-- C9 counterexample: a for-range over boolean endpoints passes the
checker without a single diagnostic. -/
theorem C9_bool_endpoints_accepted : (checkProgram c9prog).errors = [] := by
  decide

/-- C9 (amended): the checker's for-range case never visits the range
endpoint expressions at all — visiting a for-range is invariant under
replacing both endpoints (and the inclusivity flag) by anything
whatsoever, so no endpoint type mismatch can ever be reported. -/
theorem C9_endpoints_not_visited (c : CheckerState) (v : String)
    (s1 e1 s2 e2 : Expr) (incl1 incl2 : Bool) (body : List Stmt) :
    visitStatement c (.forRange v s1 e1 incl1 body) =
      visitStatement c (.forRange v s2 e2 incl2 body) := by
  simp only [visitStatement]

/-! ## C10: identifier lowering of named constants -/

/-- C10: the generator compiles a reference to a named constant into a
`LoadConst` whose second operand is the constant's NAME (a Go string),
while the VM's `LoadConst` handler asserts that operand to be a
`ConstantValueIdx` pool index — so the very first instruction of the
program `const A = 7; let x = A` dies with a type-assertion panic. -/
theorem C10_const_identifier_operand_mismatch :
    generate c10prog = .ok (c10module, []) ∧
    c10module.instructions.get? 0 = some ⟨.LoadConst, [.reg 0, .str "A"]⟩ ∧
    step (NewVM c10module []) = .error .typeAssertionFailed :=
  ⟨rfl, rfl, rfl⟩

/-! ## C4: constant folding round-trip -/

/-- C4 counterexample: a zero denominator is NOT fold-time-silent — the
folder performs the Go division eagerly and panics at fold time. -/
theorem C4_fold_time_division_panic :
    transform [.varDecl "x" none
        (some (.binary .slash (.intLit 1) (.intLit 0)))] =
      .error .intDivideByZero := rfl

/-- C4 (amended): away from the fold-time division panic, the fold of a
binary expression over two integer literals computes exactly the value
the VM's integer arithmetic produces at runtime. -/
theorem C4_fold_round_trip (op : BinOp) (x y : Int)
    (hop : op ∈ ([.plus, .minus, .asterisk, .slash, .percent, .exponent] :
      List BinOp))
    (hy : ¬((op = .slash ∨ op = .percent) ∧ y = 0)) :
    ∃ v, foldIntBinary op x y = .ok (some v) ∧
      goIntArith (mappedBinaryOperatorsToOpcodes op) x y = .ok v ∧
      evaluateConstantExpr (.binary op (.intLit x) (.intLit y)) =
        .ok (.intLit v) := by
  fin_cases hop
  · exact ⟨_, rfl, rfl, rfl⟩
  · exact ⟨_, rfl, rfl, rfl⟩
  · exact ⟨_, rfl, rfl, rfl⟩
  · have h0 : y ≠ 0 := fun h0 => hy ⟨Or.inl rfl, h0⟩
    refine ⟨wrap64 (Int.tdiv x y), ?_, ?_, ?_⟩
    · simp only [foldIntBinary, if_neg h0]
    · simp only [mappedBinaryOperatorsToOpcodes, goIntArith, if_neg h0]
    · simp [evaluateConstantExpr, IsConstantASTNode, foldIntBinary,
        if_neg h0, exceptBind_ok]
  · have h0 : y ≠ 0 := fun h0 => hy ⟨Or.inr rfl, h0⟩
    refine ⟨Int.tmod x y, ?_, ?_, ?_⟩
    · simp only [foldIntBinary, if_neg h0]
    · simp only [mappedBinaryOperatorsToOpcodes, goIntArith, if_neg h0]
    · simp [evaluateConstantExpr, IsConstantASTNode, foldIntBinary,
        if_neg h0, exceptBind_ok]
  · exact ⟨_, rfl, rfl, rfl⟩

theorem C4_fold_round_trip_witness :
    ∃ v, foldIntBinary .slash 7 2 = .ok (some v) ∧
      goIntArith (mappedBinaryOperatorsToOpcodes .slash) 7 2 = .ok v ∧
      evaluateConstantExpr (.binary .slash (.intLit 7) (.intLit 2)) =
        .ok (.intLit v) :=
  C4_fold_round_trip .slash 7 2 (by decide) (by decide)

/-! ## C5: mutual recursion -/

set_option maxHeartbeats 1600000 in
/-- C5 counterexample: the generator rejects the spec's own mutual
recursion example — `isEven`'s body refers to `isOdd`, which is not yet
in any constant pool when `isEven` is compiled. -/
theorem C5_forward_reference_fails :
    generate c5prog = .error (.unresolvedFunction "isOdd") := by
  simp only [c5prog, generate, genStmts, genStmt, genExpr, genElse,
    genCallArgs,
    exceptBind_ok, exceptBind_error, exceptPure_eq,
    GenState.curFn, GenState.mapFn, GenState.withFn, GenState.addTemp,
    GenState.addLocal, GenState.bindLocal, GenState.emit,
    GenState.emitConstantValue, GenState.patch, GenState.popTemp,
    GenState.freeAllTemps, GenState.enterScope, GenState.leaveScope,
    GenState.instrLen, GenState.lookupConstant, GenState.addConstant,
    GenState.patchAll,
    FunctionObject.emitConstantValue, FunctionObject.enterScope,
    FunctionObject.leaveScope, FunctionObject.bindLocal,
    FunctionObject.addTemp, FunctionObject.freeAllTempRegister,
    FunctionObject.popTempRegister, FunctionObject.addLocal,
    FunctionObject.lookupLocal, FunctionObject.emit,
    FunctionObject.PatchInstruction,
    getOperandValueFromConstant, findConstIdx, lookupConstantChain,
    dropTrailing, mappedBinaryOperatorsToOpcodes,
    mappedAssignOperatorsToOpcodes,
    natToString0, natToString1, natToString2, natToString3, natToString4,
    natToString5, natToString6, natToString7, natToString8, natToString9,
    reduceIte, String.reduceBEq, String.reduceAppend, String.reduceEq,
    List.find?, Option.isSome_none, Option.isSome_some,
    Option.map_none, Option.map_some, Option.elim,
    List.length_nil, List.length_cons, List.length_append,
    List.reverse_nil, List.reverse_cons, List.dropWhile_nil,
    List.dropWhile_cons, List.getLast?_nil, List.getLast?_cons,
    List.getLast?_singleton, List.dropLast_nil, List.dropLast_single,
    List.cons_append, List.nil_append,
    List.singleton_append, List.append_nil, List.get?_eq_getElem?,
    List.getElem?_nil, List.getElem?_cons, List.set_nil, List.set_cons_zero,
    List.set_cons_succ, List.foldl_nil, List.foldl_cons, List.range_zero,
    List.range_succ, List.map_nil, List.map_cons,
    Nat.reduceAdd, Nat.reduceSub, Nat.reduceMul, Nat.reduceLT,
    Nat.reduceLeDiff,
    Nat.reduceEqDiff, Nat.cast_ofNat, Nat.cast_one, Nat.cast_zero,
    Int.reduceAdd, Int.reduceSub, Int.reduceNeg, Int.reduceLT, Int.reduceLE,
    Int.reduceEq, ne_eq, not_false_eq_true, not_true_eq_false,
    Bool.false_eq_true, Bool.true_eq_false, if_false, if_true,
    ite_true, ite_false, List.dropLast, decide_eq_true_eq]

set_option maxHeartbeats 1600000 in
/-- C5 (amended): mutual recursion is supported by the CHECKER (the
spec's example program produces no diagnostics — the signature hoisting
pass resolves the forward reference), but the code generator then fails
on the very same program: its constant lookup only sees functions already
compiled, so `isOdd` is unresolved inside `isEven` and the program never
compiles, let alone prints `false`. -/
theorem C5_checker_accepts_generator_rejects :
    (checkProgram c5prog).errors = [] ∧
    generate c5prog = .error (.unresolvedFunction "isOdd") := by
  refine ⟨by decide, ?_⟩
  simp only [c5prog, generate, genStmts, genStmt, genExpr, genElse,
    genCallArgs,
    exceptBind_ok, exceptBind_error, exceptPure_eq,
    GenState.curFn, GenState.mapFn, GenState.withFn, GenState.addTemp,
    GenState.addLocal, GenState.bindLocal, GenState.emit,
    GenState.emitConstantValue, GenState.patch, GenState.popTemp,
    GenState.freeAllTemps, GenState.enterScope, GenState.leaveScope,
    GenState.instrLen, GenState.lookupConstant, GenState.addConstant,
    GenState.patchAll,
    FunctionObject.emitConstantValue, FunctionObject.enterScope,
    FunctionObject.leaveScope, FunctionObject.bindLocal,
    FunctionObject.addTemp, FunctionObject.freeAllTempRegister,
    FunctionObject.popTempRegister, FunctionObject.addLocal,
    FunctionObject.lookupLocal, FunctionObject.emit,
    FunctionObject.PatchInstruction,
    getOperandValueFromConstant, findConstIdx, lookupConstantChain,
    dropTrailing, mappedBinaryOperatorsToOpcodes,
    mappedAssignOperatorsToOpcodes,
    natToString0, natToString1, natToString2, natToString3, natToString4,
    natToString5, natToString6, natToString7, natToString8, natToString9,
    reduceIte, String.reduceBEq, String.reduceAppend, String.reduceEq,
    List.find?, Option.isSome_none, Option.isSome_some,
    Option.map_none, Option.map_some, Option.elim,
    List.length_nil, List.length_cons, List.length_append,
    List.reverse_nil, List.reverse_cons, List.dropWhile_nil,
    List.dropWhile_cons, List.getLast?_nil, List.getLast?_cons,
    List.getLast?_singleton, List.dropLast_nil, List.dropLast_single,
    List.cons_append, List.nil_append,
    List.singleton_append, List.append_nil, List.get?_eq_getElem?,
    List.getElem?_nil, List.getElem?_cons, List.set_nil, List.set_cons_zero,
    List.set_cons_succ, List.foldl_nil, List.foldl_cons, List.range_zero,
    List.range_succ, List.map_nil, List.map_cons,
    Nat.reduceAdd, Nat.reduceSub, Nat.reduceMul, Nat.reduceLT,
    Nat.reduceLeDiff,
    Nat.reduceEqDiff, Nat.cast_ofNat, Nat.cast_one, Nat.cast_zero,
    Int.reduceAdd, Int.reduceSub, Int.reduceNeg, Int.reduceLT, Int.reduceLE,
    Int.reduceEq, ne_eq, not_false_eq_true, not_true_eq_false,
    Bool.false_eq_true, Bool.true_eq_false, if_false, if_true,
    ite_true, ite_false, List.dropLast, decide_eq_true_eq]

/-! ## C8: failed declarations and the symbol table -/

/-- C8 counterexample: `let a: bool = 1` fails its type check and the
checker does NOT insert `a` — the follow-up reference to `a` cascades
into a `not found` diagnostic. -/
theorem C8_mismatch_not_inserted :
    envLookupSymbol (checkProgram c8prog1).env "a" = none ∧
    (checkProgram c8prog1).errors =
      [.varTypeMismatch "a", .identifierNotFound "a"] :=
  ⟨rfl, rfl⟩

/-- C8 (amended): a variable or constant declaration whose annotated type
is incompatible with its initializer returns WITHOUT inserting the symbol
(later references cascade into `not found`); only the
annotation-does-not-resolve path of a variable declaration without
initializer inserts the symbol with the invalid type. -/
theorem C8_insertion_on_failure :
    (envLookupSymbol (checkProgram c8prog1).env "a" = none ∧
      (checkProgram c8prog1).errors =
        [.varTypeMismatch "a", .identifierNotFound "a"]) ∧
    (envLookupSymbol (checkProgram c8prog3).env "k" = none ∧
      (checkProgram c8prog3).errors =
        [.constTypeMismatch "k", .identifierNotFound "k"]) ∧
    (envLookupSymbol (checkProgram c8prog2).env "b" =
        some ⟨"b", true, invalidType, .variableEntity, []⟩ ∧
      (checkProgram c8prog2).errors =
        [.typeNotFound "sometype", .varInvalidType "b"]) :=
  ⟨⟨rfl, rfl⟩, ⟨rfl, rfl⟩, ⟨rfl, rfl⟩⟩

/-! ## C6: for-range iteration counts -/

/-- C6 counterexample: `for i in a..=b` with `a = b = 2^63 − 1` should
iterate exactly once, but the loop variable wraps to −2^63 after the
first iteration and the `≤` check passes again: the body address is
reached a second time. -/
theorem C6_inclusive_maxint64_wraps :
    (match stepN 5 (c6vm maxI64 maxI64 true) with
      | .ok (some vm) => vm.ip == c6bodyIp
      | _ => false) = true ∧
    (match stepN 10 (c6vm maxI64 maxI64 true) with
      | .ok (some vm) => vm.ip == c6bodyIp &&
          (vm.stack.data 0 == ⟨.int64, .i64 (-9223372036854775808)⟩)
      | _ => false) = true ∧
    c6expectedIterations maxI64 maxI64 true = 1 :=
  ⟨by decide, by decide, by decide⟩

/-- C6 (amended): for the loop module the generator emits (verified at
sample ranges in the last two conjuncts), the body address is reached
exactly (b−a) times for `a..b` and (b−a+1) times for `a..=b` (0 when the
range is empty) — PROVIDED the loop is not the inclusive one ending at
2^63 − 1, where the increment wraps and the loop never terminates. -/
theorem C6_loop_iteration_count (a b : Int) (incl : Bool)
    (ha : InI64 a) (hb : InI64 b) (hincl : incl = true → b ≠ maxI64) :
    (∃ vmEnd, runCount (fun s => s.ip == c6bodyIp)
        (5 * c6expectedIterations a b incl + 6) (c6vm a b incl) =
      .ok (vmEnd, c6expectedIterations a b incl)) ∧
    generate (c6src 2 5 false) = .ok (c6module 2 5 false, []) ∧
    generate (c6src 3 7 true) = .ok (c6module 3 7 true, []) := by
  refine ⟨?_, rfl, rfl⟩
  have h1 : step (c6vm a b incl) = .ok (some ⟨1,
      ⟨255, fun j => if j = 1 then ⟨.int64, .i64 a⟩ else undefinedValue⟩,
      255, [⟨c6module a b incl, 0, 255, 0, 0, 0, 2⟩], [], []⟩) := rfl
  have h2 : step (⟨1,
      ⟨255, fun j => if j = 1 then ⟨.int64, .i64 a⟩ else undefinedValue⟩,
      255, [⟨c6module a b incl, 0, 255, 0, 0, 0, 2⟩], [], []⟩ : VM) =
    .ok (some ⟨2,
      ⟨255, fun j => if j = 0 then ⟨.int64, .i64 a⟩
        else if j = 1 then ⟨.int64, .i64 a⟩ else undefinedValue⟩,
      255, [⟨c6module a b incl, 0, 255, 0, 0, 0, 2⟩], [], []⟩) := rfl
  have h3 : step (⟨2,
      ⟨255, fun j => if j = 0 then ⟨.int64, .i64 a⟩
        else if j = 1 then ⟨.int64, .i64 a⟩ else undefinedValue⟩,
      255, [⟨c6module a b incl, 0, 255, 0, 0, 0, 2⟩], [], []⟩ : VM) =
    .ok (some ⟨3,
      ⟨255, fun j => if j = 1 then ⟨.int64, .i64 b⟩
        else if j = 0 then ⟨.int64, .i64 a⟩
        else if j = 1 then ⟨.int64, .i64 a⟩ else undefinedValue⟩,
      255, [⟨c6module a b incl, 0, 255, 0, 0, 0, 2⟩], [], []⟩) := rfl
  rw [show 5 * c6expectedIterations a b incl + 6 =
      5 * c6expectedIterations a b incl + 3 + 1 + 1 + 1 from by ring]
  rw [runCount_cons_false (fun s => s.ip == c6bodyIp)
      (5 * c6expectedIterations a b incl + 3 + 1 + 1) _ _ h1 rfl]
  rw [runCount_cons_false (fun s => s.ip == c6bodyIp)
      (5 * c6expectedIterations a b incl + 3 + 1) _ _ h2 rfl]
  rw [runCount_cons_false (fun s => s.ip == c6bodyIp)
      (5 * c6expectedIterations a b incl + 3) _ _ h3 rfl]
  exact c6_loop a b 255 incl [] [] (c6expectedIterations a b incl) a
    (fun j => if j = 1 then ⟨.int64, .i64 b⟩
      else if j = 0 then ⟨.int64, .i64 a⟩
      else if j = 1 then ⟨.int64, .i64 a⟩ else undefinedValue) 2
    rfl rfl ha hb hincl rfl

theorem C6_loop_iteration_count_witness :
    (∃ vmEnd, runCount (fun s => s.ip == c6bodyIp)
        (5 * c6expectedIterations 2 5 false + 6) (c6vm 2 5 false) =
      .ok (vmEnd, c6expectedIterations 2 5 false)) ∧
    generate (c6src 2 5 false) = .ok (c6module 2 5 false, []) ∧
    generate (c6src 3 7 true) = .ok (c6module 3 7 true, []) :=
  C6_loop_iteration_count 2 5 false (by decide) (by decide)
    (by intro h; exact absurd h (by decide))

/-! ## C7: return semantics -/

/-- C7 counterexample: after `return(from, 0)` the callee slot in the
caller's frame keeps its OLD value (here the function object that was
called) — it does not become undefined. -/
theorem C7_callee_slot_keeps_value :
    (match step c7VM0 with
      | .ok (some vm') => vm'.stack.read 2
      | _ => .error .nilFrame) = .ok ⟨.functionObject, .funcPtr 0⟩ ∧
    (⟨.functionObject, .funcPtr 0⟩ : OperandValue) ≠ undefinedValue :=
  ⟨rfl, by decide⟩

/-- C7 (amended): `return(from, count)` pops the frame and restores the
return address; with `count = 0` it performs no copies and leaves the
whole stack — the callee slot included — unchanged (NOT undefined); with
`count = 1` the callee slot (`base − 1`) receives the first returned
value. -/
theorem C7_return_copy_semantics (vm : VM) (cur : CallFrame)
    (rest : List CallFrame) (f : Int)
    (hfr : vm.frames = cur :: rest) :
    (cur.function.instructions.get? vm.ip =
        some ⟨.Return, [.reg f, .int 0]⟩ →
      step vm =
        .ok (some { vm with ip := toUInt32Nat cur.returnAddress, frames := rest })) ∧
    (∀ slot vmw,
      cur.function.instructions.get? vm.ip =
          some ⟨.Return, [.reg f, .int 1]⟩ →
      vm.stack.read (cur.base + f) = .ok slot →
      VM.setStackValue { vm with ip := vm.ip + 1 } (cur.base - 1) slot =
        .ok vmw →
      step vm =
        .ok (some { vmw with ip := toUInt32Nat cur.returnAddress, frames := rest })) := by
  constructor
  · intro hin
    simp only [step, hfr, hin, regOp, intOp, opAt, List.get?,
      GoOperand.asReg, GoOperand.asInt, exceptBind_ok, returnCopyLoop]
    rfl
  · intro slot vmw hin hread hw
    rw [hfr] at hw
    simp only [step, hfr, hin, regOp, intOp, opAt, List.get?,
      GoOperand.asReg, GoOperand.asInt, exceptBind_ok, exceptBindF_ok,
      Int.reduceLE, reduceIte, Int.reduceToNat, returnCopyLoop_succ,
      returnCopyLoop_zero, Nat.cast_zero, add_zero]
    rw [hread]
    simp only [exceptBindF_ok]
    rw [hw]
    simp only [exceptBindF_ok, returnCopyLoop_zero]
    rfl

theorem C7_return_copy_semantics_witness :
    step c7VM0 = .ok (some c7final0) ∧ step c7VM1 = .ok (some c7final1) :=
  ⟨(C7_return_copy_semantics c7VM0 ⟨c7fn0, 3, 258, 7, 0, 1, 0⟩
      [⟨c7fn0, 0, 255, 0, 0, 0, 3⟩] 1 rfl).1 rfl,
   (C7_return_copy_semantics c7VM1 ⟨c7fn1, 3, 258, 7, 0, 1, 0⟩
      [⟨c7fn1, 0, 255, 0, 0, 0, 3⟩] 1 rfl).2
     ⟨.int64, .i64 42⟩ c7written rfl rfl rfl⟩

/-! ## C1: stack overflow -/

/-- C1 counterexample: `callFunc` checks the OLD capacity against
`maxStackSize`, so from a frame near the top of a maximally grown stack a
call SUCCEEDS and the stack grows past `maxStackSize`. -/
theorem C1_overflow_check_uses_old_capacity :
    c1VM.callFunc 0 0 1 = .ok c1Grown ∧
    maxStackSize < c1Grown.stackCapacity ∧
    maxStackSize < (c1Grown.stack.size : Int) :=
  ⟨rfl, by decide, by decide⟩

/-- C1 (amended): the stack-overflow gate fires only when the PREVIOUS
capacity already exceeds `maxStackSize`; what holds of every successful
call from a well-formed state (stack length = capacity ≤ `maxStackSize`)
is the weaker bound capacity ≤ `maxStackSize + minStackFrameSize + 1`. -/
theorem C1_growth_bound (vm : VM) (function args results : Int) (vm' : VM)
    (hsz : (vm.stack.size : Int) = vm.stackCapacity)
    (hcap : vm.stackCapacity ≤ maxStackSize)
    (hok : vm.callFunc function args results = .ok vm') :
    vm'.stackCapacity ≤ maxStackSize + minStackFrameSize + 1 ∧
    (vm'.stack.size : Int) ≤ maxStackSize + minStackFrameSize + 1 := by
  unfold VM.callFunc at hok
  rcases hf : vm.frames with _ | ⟨parent, rest⟩ <;> simp only [hf] at hok
  · exact Except.noConfusion hok
  unfold Stack.read at hok
  by_cases hix : 0 ≤ parent.base + function ∧
      parent.base + function < (vm.stack.size : Int)
  swap
  · rw [if_neg hix] at hok
    simp only [Except.bind] at hok
    exact Except.noConfusion hok
  rw [if_pos hix] at hok
  simp only [Except.bind] at hok
  split at hok
  · -- builtin-function path
    split at hok
    · exact Except.noConfusion hok
    · split at hok
      · split at hok
        · exact Except.noConfusion hok
        · unfold VM.setStackNullValue at hok
          split at hok
          · cases hok
            refine ⟨?_, ?_⟩
            · show vm.stackCapacity ≤ maxStackSize + minStackFrameSize + 1
              simp only [maxStackSize, minStackFrameSize] at *
              omega
            · show (vm.stack.size : Int) ≤
                maxStackSize + minStackFrameSize + 1
              simp only [maxStackSize, minStackFrameSize] at *
              omega
          · exact Except.noConfusion hok
      · exact Except.noConfusion hok
  · split at hok
    · exact Except.noConfusion hok
    · split at hok
      · exact Except.noConfusion hok
      · split at hok
        · -- growth
          split at hok
          · exact Except.noConfusion hok
          · cases hok
            refine ⟨?_, ?_⟩
            · show parent.base + function + 1 + minStackFrameSize ≤
                maxStackSize + minStackFrameSize + 1
              simp only [maxStackSize, minStackFrameSize] at *
              omega
            · show ((parent.base + function + 1 + minStackFrameSize).toNat :
                  Int) ≤ maxStackSize + minStackFrameSize + 1
              simp only [maxStackSize, minStackFrameSize] at *
              omega
        · -- no growth
          cases hok
          refine ⟨?_, ?_⟩
          · show vm.stackCapacity ≤ maxStackSize + minStackFrameSize + 1
            simp only [maxStackSize, minStackFrameSize] at *
            omega
          · show (vm.stack.size : Int) ≤ maxStackSize + minStackFrameSize + 1
            simp only [maxStackSize, minStackFrameSize] at *
            omega

theorem C1_growth_bound_witness :
    c1SmallGrown.stackCapacity ≤ maxStackSize + minStackFrameSize + 1 ∧
    (c1SmallGrown.stack.size : Int) ≤ maxStackSize + minStackFrameSize + 1 :=
  C1_growth_bound c1SmallVM 0 0 1 c1SmallGrown rfl (by decide) rfl

end Chlang
